import Mathlib

/-!
# Verification of the warehouse-manager order/picking/shipping core

Shallow embedding of the Python services in `app/services/` and the webhook
handler in `app/api/webhooks.py`.  Databases are modelled as explicit record
states (lists of rows); each service function is translated into a pure Lean
function threading the state, returning `Except Err _` where the source can
raise.  A raised exception before `db.commit()` rolls the transaction back,
so the committed state on an error is the caller's original state; the
embedding mirrors this by having error results carry no state.

Machine floats (`price`, `total_price`, …) are modelled as `Rat`; timestamps
as `Nat` tick counts; generated UUIDs/order numbers are passed in as explicit
parameters.
-/

namespace Warehouse

/-- The order-status value space.  The Python enum `OrderStatus` in
`app/models/order.py` declares only nine members (pending, confirmed,
processing, packed, label_purchased, shipped, in_transit, delivered,
cancelled).  The values `packing` and `drop_off` appear in the database
migration (`app/database.py`) and are referenced in service code as
`OrderStatus.PACKING` / `OrderStatus.DROP_OFF`, but they are NOT members of
the Python enum; accessing them raises `AttributeError`.  We model the full
value space and record enum membership separately in `St.isEnumMember`. -/
inductive St where
  | pending
  | confirmed
  | processing
  | packing
  | packed
  | label_purchased
  | drop_off
  | shipped
  | in_transit
  | delivered
  | cancelled
deriving DecidableEq, Repr

/-- String value of a status (the `.value` of the Python str-enum, and the
string stored in the `orders.status` column). -/
def St.str : St → String
  | .pending => "pending"
  | .confirmed => "confirmed"
  | .processing => "processing"
  | .packing => "packing"
  | .packed => "packed"
  | .label_purchased => "label_purchased"
  | .drop_off => "drop_off"
  | .shipped => "shipped"
  | .in_transit => "in_transit"
  | .delivered => "delivered"
  | .cancelled => "cancelled"

/-- Membership in the Python `OrderStatus` enum as declared in
`app/models/order.py` lines 11-20: `packing` and `drop_off` are absent. -/
def St.isEnumMember : St → Bool
  | .packing => false
  | .drop_off => false
  | _ => true

/-- Picking-list status enum (`PickingListStatus` in `app/models/picking.py`). -/
inductive PLStatus where
  | active
  | processing
  | done
  | archived
deriving DecidableEq, Repr

/-- Stock-request status enum (`StockRequestStatus`). -/
inductive SRStatus where
  | pending
  | approved
  | receiving
  | completed
  | cancelled
deriving DecidableEq, Repr

/-- Python exceptions raised by the modelled code. -/
inductive Err where
  | valueError (msg : String)
  | attributeError (member : String)
  | runtimeError (msg : String)
deriving DecidableEq, Repr

/-- Row of `products` (`app/models/product.py`), restricted to the fields the
claims touch. -/
structure Product where
  id : String
  sku : String := ""
  name : String := ""
  price : Rat := 0
  quantity : Int := 0
deriving DecidableEq, Repr

/-- Row of `variants`, restricted to the fields the claims touch.
`attributes` is the parsed JSON dict (association list, preserving order). -/
structure Variant where
  id : String
  product_id : String := ""
  variant_sku : String := ""
  attributes : List (String × String) := []
  price_override : Rat := 0
  quantity : Int := 0
deriving DecidableEq, Repr

/-- Row of `order_items` (`OrderItem` in `app/models/order.py`). -/
structure OrderItem where
  id : String
  order_id : String := ""
  product_id : String := ""
  variant_id : String := ""
  sku : String := ""
  variant_sku : String := ""
  variant_label : String := ""
  product_name : String := ""
  quantity : Nat := 1
  unit_price : Rat := 0
deriving DecidableEq, Repr

/-- One entry of the parsed `status_history` JSON list. -/
structure HistEntry where
  status : String
  timestamp : Nat
  note : String
deriving DecidableEq, Repr

/-- Row of `orders`, restricted to the fields the claims touch.  The line
items are held inline (the `order.items` ORM relationship).  The mapped
class in `app/models/order.py` declares NO `carrier`, `service` or
`tracking_status` column (only `app/database.py`'s raw migration adds such
columns to the table): a Python read of `order.carrier`, `order.service` or
`order.tracking_status` on a freshly loaded instance raises
`AttributeError`, and a write merely sets an unpersisted instance attribute
that is dropped at commit.  Those three attributes therefore never exist on
a committed row and are omitted here; the services model the corresponding
reads as `attributeError` results. -/
structure Order where
  id : String
  order_number : String := ""
  status : St := .pending
  status_history : List HistEntry := []
  items : List OrderItem := []
  processing_fee : Rat := 0
  shipping_cost : Rat := 0
  total_price : Rat := 0
  easypost_shipment_id : String := ""
  tracking_number : String := ""
  tracking_url : String := ""
  label_url : String := ""
  ship_to_street1 : String := ""
  ship_to_zip : String := ""
  ship_from_street1 : String := ""
deriving DecidableEq, Repr

/-- Row of `inventory_logs` (`InventoryLog` in `app/models/inventory_log.py`). -/
structure InventoryLog where
  product_id : String
  change : Int
  reason : String
  reference_id : String := ""
  balance_after : Int
  note : String := ""
deriving DecidableEq, Repr

/-- Row of `picking_lists` (`PickingList` in `app/models/picking.py`). -/
structure PickingList where
  id : String
  picking_number : String := ""
  status : PLStatus := .active
deriving DecidableEq, Repr

/-- Row of `pick_items` (`PickItem` in `app/models/picking.py`). -/
structure PickItem where
  id : String
  picking_list_id : String := ""
  order_id : String := ""
  order_item_id : String := ""
  product_id : String := ""
  sku : String := ""
  product_name : String := ""
  variant_label : String := ""
  sequence : Nat := 1
  qr_code : String := ""
  picked : Bool := false
  picked_at : Option Nat := none
deriving DecidableEq, Repr

/-- Row of `stock_request_items`, restricted to what `receive_items` reads. -/
structure StockRequestItem where
  id : String
  product_id : String := ""
  variant_id : String := ""
  quantity_received : Int := 0
deriving DecidableEq, Repr

/-- Row of `stock_requests`, with its items inline. -/
structure StockRequest where
  id : String
  request_number : String := ""
  status : SRStatus := .pending
  items : List StockRequestItem := []
deriving DecidableEq, Repr

/-- The committed database state. -/
structure DB where
  products : List Product := []
  variants : List Variant := []
  orders : List Order := []
  invLogs : List InventoryLog := []
  pickingLists : List PickingList := []
  pickItems : List PickItem := []
  stockRequests : List StockRequest := []
deriving DecidableEq, Repr

/-- The relevant fields of `app/config.py` `Settings`. -/
structure Settings where
  EASYPOST_API_KEY : String := "key"
  PROCESSING_FEE_PER_ITEM : Rat := 1/2
  DEFAULT_CARRIER : String := "USPS"
  DEFAULT_SERVICE : String := "GroundAdvantage"
  WAREHOUSE_STREET1 : String := "6125 W Sam Houston Pkwy N"
deriving Repr

/-! ## Query helpers (SQLAlchemy `query(...).filter(...).first()` etc.) -/

def DB.findProduct (db : DB) (pid : String) : Option Product :=
  db.products.find? (fun p => p.id == pid)

def DB.findVariant (db : DB) (vid : String) : Option Variant :=
  db.variants.find? (fun v => v.id == vid)

def DB.findOrder (db : DB) (oid : String) : Option Order :=
  db.orders.find? (fun o => o.id == oid)

def DB.findPickingList (db : DB) (plid : String) : Option PickingList :=
  db.pickingLists.find? (fun l => l.id == plid)

def DB.findStockRequest (db : DB) (srid : String) : Option StockRequest :=
  db.stockRequests.find? (fun s => s.id == srid)

/-- Update the product row with the given id. -/
def DB.mapProduct (db : DB) (pid : String) (f : Product → Product) : DB :=
  { db with products := db.products.map (fun p => if p.id == pid then f p else p) }

def DB.mapVariant (db : DB) (vid : String) (f : Variant → Variant) : DB :=
  { db with variants := db.variants.map (fun v => if v.id == vid then f v else v) }

def DB.mapOrder (db : DB) (oid : String) (f : Order → Order) : DB :=
  { db with orders := db.orders.map (fun o => if o.id == oid then f o else o) }

def DB.mapPickingList (db : DB) (plid : String) (f : PickingList → PickingList) : DB :=
  { db with pickingLists := db.pickingLists.map (fun l => if l.id == plid then f l else l) }

/-- Append an inventory-ledger row (`db.add(log)`; rows are only ever appended). -/
def DB.addLog (db : DB) (log : InventoryLog) : DB :=
  { db with invLogs := db.invLogs ++ [log] }

/-- Sum of ledger deltas whose `reference_id` equals `rid` (the quantity the
spec's ledger invariant talks about). -/
def DB.refSum (db : DB) (rid : String) : Int :=
  ((db.invLogs.filter (fun l => l.reference_id == rid)).map (fun l => l.change)).sum

/-! ## `app/services/order_service.py` -/

/-- `_add_status_history` (lines 20-27): parse the JSON history list, append
one `{status, timestamp, note}` entry, store it back. -/
def addStatusHistory (o : Order) (status : String) (note : String) (now : Nat) : Order :=
  { o with status_history := o.status_history ++ [⟨status, now, note⟩] }

/-- Input schema `OrderItemCreate` (`app/schemas/order.py`).  `quantity` is a
pydantic `int` defaulting to 1; the claims only exercise unit counts, so it
is modelled as `Nat`. -/
structure OrderItemCreate where
  product_id : String
  variant_id : String := ""
  quantity : Nat := 1
deriving Repr

/-- Input schema `OrderCreate`, restricted to the fields the modelled
services read (the address fields checked by `_create_shipment`). -/
structure OrderCreateData where
  items : List OrderItemCreate := []
  ship_to_street1 : String := ""
  ship_to_zip : String := ""
  ship_from_street1 : String := ""
deriving Repr

/-- `" / ".join(attrs.values())` over the parsed variant attributes dict. -/
def joinAttrVals (attrs : List (String × String)) : String :=
  String.intercalate " / " (attrs.map Prod.snd)

/-- The per-line-item loop of `create_order` (order_service.py lines 60-124):
validate the product/variant and its stock, append the `OrderItem` row to the
order, deduct the quantity from the variant or product, and append one
inventory-ledger row (reason `order`, reference the order id, balance the
quantity after the deduction).  `itemIds i` supplies the generated uuid of
the i-th `OrderItem` row.  Returns the updated state and `total_items`. -/
def createOrderItems (oid onum : String) (itemIds : Nat → String) :
    DB → List OrderItemCreate → Nat → Except Err (DB × Nat)
  | db, [], _ => .ok (db, 0)
  | db, d :: rest, i =>
    match db.findProduct d.product_id with
    | none => .error (.valueError ("Product " ++ d.product_id ++ " not found"))
    | some product =>
      if d.variant_id ≠ "" then
        match db.variants.find? (fun v => v.id == d.variant_id && v.product_id == product.id) with
        | none =>
            .error (.valueError ("Variant " ++ d.variant_id ++ " not found for product " ++ product.sku))
        | some variant =>
          if variant.quantity < (d.quantity : Int) then
            .error (.valueError ("Insufficient stock for variant " ++ variant.variant_sku))
          else
            let unit_price := if variant.price_override > 0 then variant.price_override else product.price
            let oitem : OrderItem :=
              { id := itemIds i, order_id := oid, product_id := product.id,
                variant_id := variant.id, sku := product.sku,
                variant_sku := variant.variant_sku,
                variant_label := joinAttrVals variant.attributes,
                product_name := product.name, quantity := d.quantity,
                unit_price := unit_price }
            let db1 := (db.mapOrder oid (fun o => { o with items := o.items ++ [oitem] }))
            let db2 := db1.mapVariant variant.id (fun v => { v with quantity := v.quantity - (d.quantity : Int) })
            let db3 := db2.addLog
              { product_id := product.id, change := -(d.quantity : Int),
                reason := "order", reference_id := oid,
                balance_after := variant.quantity - (d.quantity : Int),
                note := "[Variant " ++ variant.variant_sku ++ "] Reserved for order " ++ onum }
            match createOrderItems oid onum itemIds db3 rest (i + 1) with
            | .error e => .error e
            | .ok (db4, t) => .ok (db4, d.quantity + t)
      else
        if product.quantity < (d.quantity : Int) then
          .error (.valueError ("Insufficient stock for " ++ product.sku))
        else
          let oitem : OrderItem :=
            { id := itemIds i, order_id := oid, product_id := product.id,
              variant_id := "", sku := product.sku, variant_sku := "",
              variant_label := "", product_name := product.name,
              quantity := d.quantity, unit_price := product.price }
          let db1 := (db.mapOrder oid (fun o => { o with items := o.items ++ [oitem] }))
          let db2 := db1.mapProduct product.id (fun p => { p with quantity := p.quantity - (d.quantity : Int) })
          let db3 := db2.addLog
            { product_id := product.id, change := -(d.quantity : Int),
              reason := "order", reference_id := oid,
              balance_after := product.quantity - (d.quantity : Int),
              note := "Reserved for order " ++ onum }
          match createOrderItems oid onum itemIds db3 rest (i + 1) with
          | .error e => .error e
          | .ok (db4, t) => .ok (db4, d.quantity + t)

/-- `create_order` (order_service.py lines 30-134): insert the order row with
status `pending`, run the line-item loop, set
`processing_fee = total_items × PROCESSING_FEE_PER_ITEM` and
`total_price = processing_fee` ("shipping added when label purchased"),
append the `pending`/"Order created" history entry, commit.  `oid`/`onum`
stand for the generated uuid and order number. -/
def create_order (settings : Settings) (db : DB) (data : OrderCreateData)
    (oid onum : String) (itemIds : Nat → String) (now : Nat) : Except Err DB :=
  let order0 : Order :=
    { id := oid, order_number := onum, status := .pending,
      ship_to_street1 := data.ship_to_street1, ship_to_zip := data.ship_to_zip,
      ship_from_street1 := data.ship_from_street1 }
  let dbA := { db with orders := db.orders ++ [order0] }
  match createOrderItems oid onum itemIds dbA data.items 0 with
  | .error e => .error e
  | .ok (db1, total_items) =>
    let fee := (total_items : Rat) * settings.PROCESSING_FEE_PER_ITEM
    .ok (db1.mapOrder oid (fun o =>
      addStatusHistory { o with processing_fee := fee, total_price := fee }
        "pending" "Order created" now))

/-- `update_order_status` (order_service.py lines 154-162): no validation
against the current state; sets the requested status and appends a history
entry.  The `status` argument comes from the `OrderStatusUpdate` schema,
which pydantic validates against the nine declared enum members; theorems
carry that as the `St.isEnumMember` hypothesis. -/
def update_order_status (db : DB) (oid : String) (status : St) (note : String)
    (now : Nat) : Option DB :=
  match db.findOrder oid with
  | none => none
  | some _ =>
      some (db.mapOrder oid (fun o =>
        addStatusHistory { o with status := status } status.str note now))

/-- The restore loop of `cancel_order` (order_service.py lines 172-199): for
each line item, if its variant (resp. product) still exists, add the quantity
back and append one compensating ledger row (reason `order_cancelled`,
reference the order id); items whose variant/product row is gone are
silently skipped. -/
def cancelRestore (o : Order) : DB → List OrderItem → DB
  | db, [] => db
  | db, item :: rest =>
    let db1 :=
      if item.variant_id ≠ "" then
        match db.findVariant item.variant_id with
        | some variant =>
            (db.mapVariant variant.id (fun v => { v with quantity := v.quantity + (item.quantity : Int) })).addLog
              { product_id := item.product_id, change := (item.quantity : Int),
                reason := "order_cancelled", reference_id := o.id,
                balance_after := variant.quantity + (item.quantity : Int),
                note := "[Variant " ++ variant.variant_sku ++ "] Restored from cancelled order " ++ o.order_number }
        | none => db
      else
        match db.findProduct item.product_id with
        | some product =>
            (db.mapProduct product.id (fun p => { p with quantity := p.quantity + (item.quantity : Int) })).addLog
              { product_id := product.id, change := (item.quantity : Int),
                reason := "order_cancelled", reference_id := o.id,
                balance_after := product.quantity + (item.quantity : Int),
                note := "Restored from cancelled order " ++ o.order_number }
        | none => db
    cancelRestore o db1 rest

/-- `cancel_order` (order_service.py lines 165-205): `None` when the order id
does not resolve; raises `ValueError` when the status is `shipped`,
`in_transit` or `delivered` (note: an already-`cancelled` order passes this
guard); otherwise runs the restore loop, sets status `cancelled` and appends
history. -/
def cancel_order (db : DB) (oid : String) (now : Nat) : Except Err (Option DB) :=
  match db.findOrder oid with
  | none => .ok none
  | some o =>
    if o.status = .shipped ∨ o.status = .in_transit ∨ o.status = .delivered then
      .error (.valueError ("Cannot cancel order in " ++ o.status.str ++ " status"))
    else
      let db1 := cancelRestore o db o.items
      .ok (some (db1.mapOrder oid (fun x =>
        addStatusHistory { x with status := .cancelled } "cancelled" "Order cancelled" now)))

/-! ## `app/services/picking_service.py` -/

/-- One pick unit per physical item: `for seq in range(1, item.quantity + 1)`
(picking_service.py line 54). -/
def pickUnits (o : Order) : List (OrderItem × Nat) :=
  o.items.flatMap (fun it => (List.range it.quantity).map (fun k => (it, k + 1)))

/-- All pick units of the fetched orders, in iteration order (lines 51-54). -/
def batchUnits (orders : List Order) : List (Order × OrderItem × Nat) :=
  orders.flatMap (fun o => (pickUnits o).map (fun p => (o, p.1, p.2)))

/-- `create_picking_list` (picking_service.py lines 16-75): fetch the orders
named by `order_ids`; `ValueError` when none resolve, when any fetched order
is not `pending`, or when any pick item of one of the `order_ids` belongs to
a picking list whose status is `active` or `processing`.  On success, insert
the picking list, one `PickItem` per unit of every line item of every fetched
order (sku snapshot `item.variant_sku or item.sku`), and move every fetched
order to `processing`.  `plid`/`plnum` are the generated list id and batch
number, `pickIds n`/`qrs n` the generated uuid and QR token of the n-th
created pick item. -/
def create_picking_list (db : DB) (order_ids : List String) (plid plnum : String)
    (pickIds qrs : Nat → String) : Except Err DB :=
  let orders := db.orders.filter (fun o => order_ids.contains o.id)
  if orders.isEmpty then
    .error (.valueError "No valid orders found")
  else if !(orders.filter (fun o => o.status != St.pending)).isEmpty then
    .error (.valueError "Only pending orders can be batched")
  else if !(db.pickItems.filter (fun i =>
      order_ids.contains i.order_id &&
      (match db.findPickingList i.picking_list_id with
       | some l => l.status == PLStatus.active || l.status == PLStatus.processing
       | none => false))).isEmpty then
    .error (.valueError "Orders already in an active batch")
  else
    let pl : PickingList := { id := plid, picking_number := plnum, status := .active }
    let newItems := (batchUnits orders).enum.map (fun n =>
      { id := pickIds n.1, picking_list_id := plid, order_id := n.2.1.id,
        order_item_id := n.2.2.1.id, product_id := n.2.2.1.product_id,
        sku := if n.2.2.1.variant_sku ≠ "" then n.2.2.1.variant_sku else n.2.2.1.sku,
        product_name := n.2.2.1.product_name, variant_label := n.2.2.1.variant_label,
        sequence := n.2.2.2, qr_code := qrs n.1 : PickItem })
    let db1 := { db with pickingLists := db.pickingLists ++ [pl],
                         pickItems := db.pickItems ++ newItems }
    .ok { db1 with orders := db1.orders.map (fun o =>
      if order_ids.contains o.id then { o with status := .processing } else o) }

/-- Stands for `picked_at.strftime("%H:%M:%S")`; the clock-face rendering is
not load-bearing, only that the message names the stored pick time. -/
def fmtHMS (t : Nat) : String := toString t

/-- The success message of a scan (picking_service.py line 133). -/
def pickedMsg (pi : PickItem) : String :=
  "Picked: " ++ pi.product_name ++ " (" ++ pi.sku ++ ")" ++
    (if pi.variant_label ≠ "" then " [" ++ pi.variant_label ++ "]" else "") ++
    " #" ++ toString pi.sequence

/-- The dict returned by `scan_pick_item`. -/
structure ScanResult where
  success : Bool
  message : String
  pick_item : Option String := none
  order_id : String := ""
  order_number : String := ""
  order_picked : Nat := 0
  order_total : Nat := 0
  order_complete : Bool := false
deriving DecidableEq, Repr

/-- `scan_pick_item` (picking_service.py lines 86-140).  Unknown QR and
already-picked QR return failure dicts without touching state.  Otherwise:
mark picked with timestamp, promote the batch `active → processing`, recount
the order's pick items in this batch, and update the order status: `packed`
when fully picked, else — when the order is still `processing` — the source
assigns `OrderStatus.PACKING`, a member the enum does not declare, so the
attribute access raises `AttributeError` and the transaction never commits
(modelled as an error result; the caller's state is unchanged). -/
def scan_pick_item (db : DB) (qr : String) (now : Nat) : Except Err (DB × ScanResult) :=
  match db.pickItems.find? (fun i => i.qr_code == qr) with
  | none => .ok (db, { success := false, message := "QR code not found", pick_item := none })
  | some pi =>
    if pi.picked then
      .ok (db, { success := false,
                 message := "Already picked at " ++
                   (match pi.picked_at with | some t => fmtHMS t | none => "unknown"),
                 pick_item := some pi.id })
    else
      let db1 := { db with pickItems := db.pickItems.map (fun (i : PickItem) =>
        if i.qr_code == qr then { i with picked := true, picked_at := some now } else i) }
      let db2 :=
        match db1.findPickingList pi.picking_list_id with
        | some l =>
            if l.status = PLStatus.active then
              db1.mapPickingList l.id (fun x => { x with status := .processing })
            else db1
        | none => db1
      let order_items := db2.pickItems.filter (fun (i : PickItem) =>
        i.picking_list_id == pi.picking_list_id && i.order_id == pi.order_id)
      let order_total := order_items.length
      let order_picked := (order_items.filter (fun (i : PickItem) => i.picked)).length
      match db2.findOrder pi.order_id with
      | none =>
          .ok (db2, { success := true, message := pickedMsg pi, pick_item := some pi.id,
                      order_id := pi.order_id, order_number := "",
                      order_picked := order_picked, order_total := order_total,
                      order_complete := decide (order_picked ≥ order_total) })
      | some o =>
        if order_picked ≥ order_total then
          .ok (db2.mapOrder o.id (fun x => { x with status := .packed }),
               { success := true, message := pickedMsg pi, pick_item := some pi.id,
                 order_id := pi.order_id, order_number := o.order_number,
                 order_picked := order_picked, order_total := order_total,
                 order_complete := decide (order_picked ≥ order_total) })
        else if o.status = St.processing then
          .error (.attributeError "PACKING")
        else
          .ok (db2, { success := true, message := pickedMsg pi, pick_item := some pi.id,
                      order_id := pi.order_id, order_number := o.order_number,
                      order_picked := order_picked, order_total := order_total,
                      order_complete := decide (order_picked ≥ order_total) })

/-! ## `app/api/webhooks.py` (the EasyPost webhook handler) -/

/-- Evaluation of the `app.api.webhooks` module body.  The `_PRE_SHIPPED`
set literal (webhooks.py lines 25-28) references `OrderStatus.DROP_OFF`,
a member the enum in `app/models/order.py` does not declare, so importing
the module raises `AttributeError` — the webhook route is never even
registered. -/
def webhookModuleImport : Except Err Unit := .error (.attributeError "DROP_OFF")

/-- The parsed webhook payload (`result` object of the EasyPost event). -/
structure TrackingEvent where
  description : String := ""
  tracking_code : String := ""
  status : String := ""
  status_detail : String := ""
  public_url : String := ""
deriving Repr

/-- The JSON body the handler answers with (fields the claims mention). -/
structure WebhookResp where
  received : Bool
  action : String := ""
  order_status_updated : Bool := false
deriving DecidableEq, Repr

/-- `easypost_webhook` (webhooks.py lines 44-118) as the code stands (were
the module importable at all — see `webhookModuleImport`): an absent
tracking code and an unmatched tracking number are acknowledged no-ops
(lines 65-72, before any mutation); for a matched order, line 75
(`old_tracking_status = order.tracking_status or ""`) reads
`order.tracking_status`, an attribute the `Order` model does not declare
and that no committed row carries, so the handler raises `AttributeError`
before any mutation and the transaction rolls back.  The status-transition
logic of lines 84-101 is unreachable for every matched-order event. -/
def easypost_webhook (db : DB) (ev : TrackingEvent) : Except Err (DB × WebhookResp) :=
  if ev.tracking_code == "" then
    .ok (db, { received := true, action := "no_tracking_code" })
  else
    match db.orders.find? (fun o => o.tracking_number == ev.tracking_code) with
    | none => .ok (db, { received := true, action := "order_not_found" })
    | some _ => .error (.attributeError "tracking_status")

/-! ## `app/services/shipping_service.py` -/

/-- A rate quote as returned by the carrier API (`rate` is the price,
`float(r.rate)` in the source, modelled as `Rat`). -/
structure Rate where
  carrier : String
  service : String
  rate : Rat
deriving DecidableEq, Repr

/-- `a` occurs as a contiguous run of `l`. -/
def substrAux (a : List Char) : List Char → Bool
  | [] => a.isEmpty
  | l@(_ :: rest) => a.isPrefixOf l || substrAux a rest

/-- Python `a in b` on service strings: `a` occurs as a contiguous substring
of `b`. -/
def strContains (b a : String) : Bool :=
  substrAux a.toList b.toList

/-- Python `min(rates, key=lambda r: float(r.rate))`: the first quote with
the minimal price. -/
def minByRate (rs : List Rate) : Option Rate :=
  rs.foldl (fun acc r =>
    match acc with
    | none => some r
    | some m => if r.rate < m.rate then some r else some m) none

/-- `_find_rate` (shipping_service.py lines 46-80): progressive fallback —
exact match, case-insensitive match, carrier match with service substring
containment in either direction, cheapest of the requested carrier, overall
cheapest. -/
def find_rate (rates : List Rate) (carrier service : String) : Option Rate :=
  if rates.isEmpty then none
  else
    match rates.find? (fun r => r.carrier == carrier && r.service == service) with
    | some r => some r
    | none =>
      let cl := carrier.toLower
      let sl := service.toLower
      match rates.find? (fun r => r.carrier.toLower == cl && r.service.toLower == sl) with
      | some r => some r
      | none =>
        match rates.find? (fun r => r.carrier.toLower == cl &&
            (strContains r.service.toLower sl || strContains sl r.service.toLower)) with
        | some r => some r
        | none =>
          let carrier_rates := rates.filter (fun r => r.carrier.toLower == cl)
          if !carrier_rates.isEmpty then minByRate carrier_rates
          else minByRate rates

/-- The postage label object of a purchase response; absent when the carrier
returned none. -/
structure PostageLabel where
  label_url : String
deriving DecidableEq, Repr

/-- The tracker object of a purchase response. -/
structure Tracker where
  public_url : String
deriving DecidableEq, Repr

/-- The carrier's response to `client.shipment.buy`. -/
structure Bought where
  id : String
  tracking_code : String := ""
  tracker : Option Tracker := none
  postage_label : Option PostageLabel := none
deriving DecidableEq, Repr

/-- The external EasyPost client for one request, as a black-box oracle: the
quote list a created shipment carries and the response a purchase returns
(spec §6 treats the rate/label service as an external collaborator). -/
structure EPClient where
  rates : List Rate := []
  bought : Bought := { id := "shp" }
deriving Repr

/-- `buy_label` (shipping_service.py lines 138-181).  Fails when the order is
missing; fails on the idempotency guard `easypost_shipment_id and label_url`
(both non-empty, line 143); then resolves carrier/service (line 147:
`carrier = carrier or order.carrier or settings.DEFAULT_CARRIER`) — Python
`or` short-circuits, so with a non-empty argument the given value is used,
but with an empty argument the fallback reads `order.carrier`
(resp. `order.service`), an attribute the `Order` model does not declare,
raising `AttributeError` (the writes at lines 162-163 are unpersisted
instance attributes, so the attribute is absent on every freshly loaded
instance); `_get_client` fails when no API key is configured;
`_create_shipment` fails when neither the order nor the settings carry a
ship-from street, or when the ship-to street or zip is missing; fails when
the quote list is empty or no rate is found.  Only then is the purchase
issued (`client.shipment.buy`): every `.error` result occurs before the
purchase, and an `.ok` result means exactly one purchase was issued.  On
success the mapped label/tracking columns are recorded (empty strings when
the response carried no tracker/postage label), the shipping cost set,
`total_price` recomputed as item subtotal + processing fee + shipping cost,
the status set to `label_purchased`, history appended; the
`order.carrier`/`order.service` writes are unpersisted and do not reach the
committed row. -/
def buy_label (settings : Settings) (db : DB) (order_id : String)
    (carrier service : String) (client : EPClient) (now : Nat) : Except Err DB :=
  match db.findOrder order_id with
  | none => .error (.valueError "Order not found")
  | some o =>
    if o.easypost_shipment_id ≠ "" ∧ o.label_url ≠ "" then
      .error (.valueError "Label already purchased for this order")
    else if carrier = "" then
      .error (.attributeError "carrier")
    else if service = "" then
      .error (.attributeError "service")
    else
      if settings.EASYPOST_API_KEY = "" then
        .error (.runtimeError "EASYPOST_API_KEY not configured")
      else if o.ship_from_street1 = "" ∧ settings.WAREHOUSE_STREET1 = "" then
        .error (.valueError "warehouse address not configured")
      else if o.ship_to_street1 = "" ∨ o.ship_to_zip = "" then
        .error (.valueError "ship-to address missing street or zip")
      else if client.rates.isEmpty then
        .error (.valueError "No shipping rates available")
      else
        match find_rate client.rates carrier service with
        | none => .error (.valueError "No rate found")
        | some sel =>
          let bought := client.bought
          let items_subtotal : Rat :=
            (o.items.map (fun i => (i.quantity : Rat) * i.unit_price)).sum
          .ok (db.mapOrder o.id (fun x =>
            addStatusHistory
              { x with easypost_shipment_id := bought.id,
                       tracking_number := bought.tracking_code,
                       tracking_url := match bought.tracker with
                         | some t => t.public_url
                         | none => "",
                       label_url := match bought.postage_label with
                         | some p => p.label_url
                         | none => "",
                       shipping_cost := sel.rate,
                       total_price := items_subtotal + o.processing_fee + sel.rate,
                       status := .label_purchased }
              "label_purchased"
              ("Label purchased via " ++ sel.carrier ++ " " ++ sel.service) now))

/-- `refund_shipment` (shipping_service.py lines 184-204): fails when the
order has no `easypost_shipment_id`, or (in `_get_client`) when no API key is
configured; otherwise requests the carrier refund, clears the mapped
label/tracking columns, zeroes the shipping cost and recomputes
`total_price = item subtotal + processing_fee`.  The
`order.tracking_status = ""` write at line 198 targets an attribute the
`Order` model does not declare: a plain attribute write raises nothing but
is unpersisted, so it does not reach the committed row. -/
def refund_shipment (settings : Settings) (db : DB) (o : Order) : Except Err DB :=
  if o.easypost_shipment_id = "" then
    .error (.valueError "No shipment to refund")
  else if settings.EASYPOST_API_KEY = "" then
    .error (.runtimeError "EASYPOST_API_KEY not configured")
  else
    let items_subtotal : Rat :=
      (o.items.map (fun i => (i.quantity : Rat) * i.unit_price)).sum
    .ok (db.mapOrder o.id (fun x =>
      { x with label_url := "", tracking_number := "", tracking_url := "",
               shipping_cost := 0,
               total_price := items_subtotal + o.processing_fee }))

/-! ## `app/services/product_service.py` -/

/-- Input schema `VariantCreate` (fields the modelled code reads). -/
structure VariantCreateData where
  variant_sku : String
  attributes : List (String × String) := []
  price_override : Rat := 0
  quantity : Int := 0
deriving Repr

/-- Input schema `ProductCreate` (fields the modelled code reads). -/
structure ProductCreateData where
  sku : String
  name : String := ""
  price : Rat := 0
  quantity : Int := 0
  variants : List VariantCreateData := []
deriving Repr

/-- The variant loop of `create_product` (product_service.py lines 53-66):
inserts one `Variant` row per requested variant, with its initial
`quantity` — and appends no inventory-ledger row for it. -/
def createProductVariants (pid : String) (vids : Nat → String) :
    DB → List VariantCreateData → Nat → DB
  | db, [], _ => db
  | db, v :: rest, i =>
    let row : Variant :=
      { id := vids i, product_id := pid, variant_sku := v.variant_sku,
        attributes := v.attributes, price_override := v.price_override,
        quantity := v.quantity }
    createProductVariants pid vids { db with variants := db.variants ++ [row] } rest (i + 1)

/-- `create_product` (product_service.py lines 22-70): insert the product
row; when `quantity > 0` append one `inbound` ledger row with the initial
balance; insert the requested variants (with their own initial quantities,
and no ledger rows).  `pid`/`vids i` are the generated uuids. -/
def create_product (db : DB) (data : ProductCreateData) (pid : String)
    (vids : Nat → String) : DB :=
  let product : Product :=
    { id := pid, sku := data.sku, name := data.name, price := data.price,
      quantity := data.quantity }
  let db1 := { db with products := db.products ++ [product] }
  let db2 :=
    if data.quantity > 0 then
      db1.addLog { product_id := pid, change := data.quantity, reason := "inbound",
                   reference_id := "", balance_after := data.quantity,
                   note := "Initial stock on product creation" }
    else db1
  createProductVariants pid vids db2 data.variants 0

/-- `create_variant` (product_service.py lines 138-160): `None` when the
product id does not resolve; `ValueError` when the variant SKU already
exists; otherwise inserts the `Variant` row with its initial `quantity` —
and appends no inventory-ledger row. -/
def create_variant (db : DB) (product_id : String) (data : VariantCreateData)
    (vid : String) : Except Err (Option DB) :=
  match db.findProduct product_id with
  | none => .ok none
  | some _ =>
    match db.variants.find? (fun v => v.variant_sku == data.variant_sku) with
    | some _ => .error (.valueError ("Variant SKU " ++ data.variant_sku ++ " already exists"))
    | none =>
      let row : Variant :=
        { id := vid, product_id := product_id, variant_sku := data.variant_sku,
          attributes := data.attributes, price_override := data.price_override,
          quantity := data.quantity }
      .ok (some { db with variants := db.variants ++ [row] })

/-- `adjust_inventory` (product_service.py lines 102-120): `None` when the
product id does not resolve; `ValueError` when the adjusted quantity would be
negative; otherwise sets the new quantity and appends exactly one ledger row
with the delta and resulting balance. -/
def adjust_inventory (db : DB) (product_id : String) (qty : Int)
    (reason note : String) : Except Err (Option DB) :=
  match db.findProduct product_id with
  | none => .ok none
  | some p =>
    if p.quantity + qty < 0 then
      .error (.valueError "Insufficient stock")
    else
      .ok (some ((db.mapProduct p.id (fun x => { x with quantity := p.quantity + qty })).addLog
        { product_id := p.id, change := qty, reason := reason, reference_id := "",
          balance_after := p.quantity + qty, note := note }))

/-- `adjust_variant_inventory` (product_service.py lines 194-212): same
shape as `adjust_inventory` for a variant; the ledger row carries the
variant's parent `product_id`. -/
def adjust_variant_inventory (db : DB) (variant_id : String) (qty : Int)
    (reason note : String) : Except Err (Option DB) :=
  match db.findVariant variant_id with
  | none => .ok none
  | some v =>
    if v.quantity + qty < 0 then
      .error (.valueError "Insufficient stock")
    else
      .ok (some ((db.mapVariant v.id (fun x => { x with quantity := v.quantity + qty })).addLog
        { product_id := v.product_id, change := qty, reason := reason, reference_id := "",
          balance_after := v.quantity + qty,
          note := "[Variant " ++ v.variant_sku ++ "] " ++ note }))

/-! ## `app/services/stock_request_service.py` (`receive_items`) -/

/-- One entry of the `StockRequestReceive` payload. -/
structure ReceiveItemData where
  item_id : String
  quantity_received : Int
deriving Repr

def DB.mapStockRequest (db : DB) (srid : String) (f : StockRequest → StockRequest) : DB :=
  { db with stockRequests := db.stockRequests.map (fun s => if s.id == srid then f s else s) }

/-- The receive loop of `receive_items` (stock_request_service.py lines
113-148): for each received entry, resolve the stock-request item (error when
unknown or negative), record `quantity_received`, and when positive add the
quantity to the variant (resp. product) if it still exists and append one
`stock_request` ledger row referencing the stock request id. -/
def receiveLoop (sr : StockRequest) : DB → List ReceiveItemData → Except Err DB
  | db, [] => .ok db
  | db, r :: rest =>
    match sr.items.find? (fun it => it.id == r.item_id) with
    | none => .error (.valueError ("Stock request item " ++ r.item_id ++ " not found"))
    | some item =>
      if r.quantity_received < 0 then
        .error (.valueError "Received quantity cannot be negative")
      else
        let db1 := db.mapStockRequest sr.id (fun s =>
          { s with items := s.items.map (fun it =>
              if it.id == r.item_id then { it with quantity_received := r.quantity_received } else it) })
        if r.quantity_received > 0 then
          if item.variant_id ≠ "" then
            match db1.findVariant item.variant_id with
            | some variant =>
              receiveLoop sr
                ((db1.mapVariant variant.id (fun v =>
                    { v with quantity := v.quantity + r.quantity_received })).addLog
                  { product_id := item.product_id, change := r.quantity_received,
                    reason := "stock_request", reference_id := sr.id,
                    balance_after := variant.quantity + r.quantity_received,
                    note := "[SR " ++ sr.request_number ++ "] Received" }) rest
            | none =>
              receiveLoop sr
                (db1.addLog
                  { product_id := item.product_id, change := r.quantity_received,
                    reason := "stock_request", reference_id := sr.id,
                    balance_after := r.quantity_received,
                    note := "[SR " ++ sr.request_number ++ "] Received" }) rest
          else
            match db1.findProduct item.product_id with
            | some product =>
              receiveLoop sr
                ((db1.mapProduct product.id (fun p =>
                    { p with quantity := p.quantity + r.quantity_received })).addLog
                  { product_id := item.product_id, change := r.quantity_received,
                    reason := "stock_request", reference_id := sr.id,
                    balance_after := product.quantity + r.quantity_received,
                    note := "[SR " ++ sr.request_number ++ "] Received" }) rest
            | none =>
              receiveLoop sr
                (db1.addLog
                  { product_id := item.product_id, change := r.quantity_received,
                    reason := "stock_request", reference_id := sr.id,
                    balance_after := r.quantity_received,
                    note := "[SR " ++ sr.request_number ++ "] Received" }) rest
        else receiveLoop sr db1 rest

/-- `receive_items` (stock_request_service.py lines 101-152): `None` when
the stock-request id does not resolve; `ValueError` unless the status is
`approved` or `receiving`; sets the status to `receiving` and runs the
receive loop. -/
def receive_items (db : DB) (sr_id : String) (recvs : List ReceiveItemData) :
    Except Err (Option DB) :=
  match db.findStockRequest sr_id with
  | none => .ok none
  | some sr =>
    if sr.status = .approved ∨ sr.status = .receiving then
      let db1 := db.mapStockRequest sr_id (fun s => { s with status := .receiving })
      match receiveLoop sr db1 recvs with
      | .error e => .error e
      | .ok db2 => .ok (some db2)
    else
      .error (.valueError "Cannot receive items in this status")

/-! ## One request against the modelled services -/

/-- One inbound request, with its generated ids and external responses as
explicit data. -/
inductive Op where
  | createOrd (data : OrderCreateData) (oid onum : String) (itemIds : Nat → String) (now : Nat)
  | cancelOrd (oid : String) (now : Nat)
  | updStatus (oid : String) (status : St) (note : String) (now : Nat)
  | mkBatch (order_ids : List String) (plid plnum : String) (pickIds qrs : Nat → String)
  | scan (qr : String) (now : Nat)
  | buyLab (oid carrier service : String) (client : EPClient) (now : Nat)
  | refundShip (oid : String)
  | adjProd (pid : String) (qty : Int) (reason note : String)
  | adjVar (vid : String) (qty : Int) (reason note : String)
  | mkProduct (data : ProductCreateData) (pid : String) (vids : Nat → String)
  | mkVariant (product_id : String) (data : VariantCreateData) (vid : String)
  | recvItems (sr_id : String) (recvs : List ReceiveItemData)

/-- The committed state after one request: a request that raises rolls its
transaction back, leaving the committed state unchanged. -/
def applyOp (settings : Settings) (db : DB) : Op → DB
  | .createOrd data oid onum itemIds now =>
    match create_order settings db data oid onum itemIds now with
    | .ok db1 => db1
    | .error _ => db
  | .cancelOrd oid now =>
    match cancel_order db oid now with
    | .ok (some db1) => db1
    | _ => db
  | .updStatus oid status note now => (update_order_status db oid status note now).getD db
  | .mkBatch order_ids plid plnum pickIds qrs =>
    match create_picking_list db order_ids plid plnum pickIds qrs with
    | .ok db1 => db1
    | .error _ => db
  | .scan qr now =>
    match scan_pick_item db qr now with
    | .ok (db1, _) => db1
    | .error _ => db
  | .buyLab oid carrier service client now =>
    match buy_label settings db oid carrier service client now with
    | .ok db1 => db1
    | .error _ => db
  | .refundShip oid =>
    match db.findOrder oid with
    | some o =>
      match refund_shipment settings db o with
      | .ok db1 => db1
      | .error _ => db
    | none => db
  | .adjProd pid qty reason note =>
    match adjust_inventory db pid qty reason note with
    | .ok (some db1) => db1
    | _ => db
  | .adjVar vid qty reason note =>
    match adjust_variant_inventory db vid qty reason note with
    | .ok (some db1) => db1
    | _ => db
  | .mkProduct data pid vids => create_product db data pid vids
  | .mkVariant product_id data vid =>
    match create_variant db product_id data vid with
    | .ok (some db1) => db1
    | _ => db
  | .recvItems sr_id recvs =>
    match receive_items db sr_id recvs with
    | .ok (some db1) => db1
    | _ => db

/-- Item subtotal of an order: `sum(i.quantity * i.unit_price for i in items)`. -/
def itemSubtotal (o : Order) : Rat :=
  (o.items.map (fun i => (i.quantity : Rat) * i.unit_price)).sum

/-- Total units of an order (the amount reserved at creation). -/
def orderUnits (o : Order) : Nat :=
  (o.items.map (fun i => i.quantity)).sum

/-- `true` exactly for a non-raising result. -/
def isOkResult {α : Type} : Except Err α → Bool
  | .ok _ => true
  | .error _ => false

/-! ## Shared lemmas about the state helpers -/

@[simp] theorem invLogs_mapOrder (db : DB) (oid : String) (f : Order → Order) :
    (db.mapOrder oid f).invLogs = db.invLogs := rfl

@[simp] theorem invLogs_mapProduct (db : DB) (pid : String) (f : Product → Product) :
    (db.mapProduct pid f).invLogs = db.invLogs := rfl

@[simp] theorem invLogs_mapVariant (db : DB) (vid : String) (f : Variant → Variant) :
    (db.mapVariant vid f).invLogs = db.invLogs := rfl

@[simp] theorem invLogs_mapPickingList (db : DB) (plid : String) (f : PickingList → PickingList) :
    (db.mapPickingList plid f).invLogs = db.invLogs := rfl

@[simp] theorem invLogs_mapStockRequest (db : DB) (srid : String) (f : StockRequest → StockRequest) :
    (db.mapStockRequest srid f).invLogs = db.invLogs := rfl

@[simp] theorem invLogs_addLog (db : DB) (l : InventoryLog) :
    (db.addLog l).invLogs = db.invLogs ++ [l] := rfl

/-- Appending one ledger row adds its delta to `refSum` when the reference
matches, else leaves it unchanged. -/
theorem refSum_addLog (db : DB) (l : InventoryLog) (rid : String) :
    (db.addLog l).refSum rid = db.refSum rid + (if l.reference_id = rid then l.change else 0) := by
  simp only [DB.refSum, invLogs_addLog, List.filter_append, List.map_append, List.sum_append]
  by_cases h : l.reference_id = rid
  · simp [h]
  · simp [h]

theorem refSum_mapOrder (db : DB) (oid : String) (f : Order → Order) (rid : String) :
    (db.mapOrder oid f).refSum rid = db.refSum rid := rfl

theorem refSum_mapProduct (db : DB) (pid : String) (f : Product → Product) (rid : String) :
    (db.mapProduct pid f).refSum rid = db.refSum rid := rfl

theorem refSum_mapVariant (db : DB) (vid : String) (f : Variant → Variant) (rid : String) :
    (db.mapVariant vid f).refSum rid = db.refSum rid := rfl

/-- `find?` over an in-place update (`map` with a guarded function) returns
the updated first hit, provided the update keeps the predicate true there. -/
theorem find?_map_update {α : Type} (p : α → Bool) (f : α → α) :
    ∀ (l : List α) (a : α), l.find? p = some a → p (f a) = true →
      (l.map (fun x => if p x then f x else x)).find? p = some (f a)
  | [], a, h, _ => by simp [List.find?] at h
  | x :: xs, a, h, hf => by
    by_cases hx : p x
    · have hax : a = x := by
        simp only [List.find?, hx] at h
        exact (Option.some_inj.mp h).symm
      subst hax
      simp [List.find?, hx, hf]
    · simp only [List.find?, hx] at h
      have ih := find?_map_update p f xs a h hf
      simp only [List.map, List.find?, hx, if_neg hx, Bool.false_eq_true, ite_false]
      simpa [hx] using ih

/-- Rows that the guarded update does not touch stay in the table. -/
theorem mem_map_update {α : Type} (p : α → Bool) (f : α → α) (l : List α) (a : α)
    (ha : a ∈ l) (hp : p a = false) :
    a ∈ l.map (fun x => if p x then f x else x) := by
  have := List.mem_map_of_mem (fun x => if p x then f x else x) ha
  simpa [hp] using this

/-! ## Claim C8: the rate-selection fallback policy -/

/-- Spec-side rendering of the §4.4 progressive fallback policy, written
tier by tier from the spec's words, to be compared with the
source-translated `find_rate`: (1) exact carrier+service string match (first
such quote); (2) case-insensitive carrier+service equality; (3) same carrier
(case-insensitive) with substring containment between requested and quoted
service name in either direction; (4) cheapest quote among those of the
requested carrier; (5) overall cheapest quote. -/
def specFindRate (rates : List Rate) (carrier service : String) : Option Rate :=
  let tier1 := rates.find? (fun r => r.carrier == carrier && r.service == service)
  let tier2 := rates.find? (fun r =>
    r.carrier.toLower == carrier.toLower && r.service.toLower == service.toLower)
  let tier3 := rates.find? (fun r => r.carrier.toLower == carrier.toLower &&
    (strContains r.service.toLower service.toLower ||
     strContains service.toLower r.service.toLower))
  let tier4 := minByRate (rates.filter (fun r => r.carrier.toLower == carrier.toLower))
  let tier5 := minByRate rates
  (((tier1.orElse fun _ => tier2).orElse fun _ => tier3).orElse fun _ => tier4).orElse fun _ => tier5

theorem minByRate_foldl_some (l : List Rate) (r : Rate) :
    ∃ m, l.foldl (fun acc x =>
      match acc with
      | none => some x
      | some m => if x.rate < m.rate then some x else some m) (some r) = some m := by
  induction l generalizing r with
  | nil => exact ⟨r, rfl⟩
  | cons a l ih =>
    simp only [List.foldl]
    by_cases h : a.rate < r.rate
    · simpa [h] using ih a
    · simpa [h] using ih r

theorem minByRate_some_of_ne_nil (l : List Rate) (h : l ≠ []) :
    ∃ m, minByRate l = some m := by
  cases l with
  | nil => exact absurd rfl h
  | cons a l => exact minByRate_foldl_some l a

/-- C8: `_find_rate` realises the progressive fallback policy — for every
quote list and requested (carrier, service) pair it returns the result of the
first tier that yields a match, in the order: exact match, case-insensitive
match, carrier match with service substring containment either way, cheapest
of the requested carrier, overall cheapest; and on the quotes
[(USPS, Priority, 12), (USPS, PriorityMailExpress, 28)] requested with
(USPS, Priority) it returns the exact Priority match, not the cheapest. -/
theorem C8_find_rate_policy :
    (∀ (rates : List Rate) (carrier service : String),
      find_rate rates carrier service = specFindRate rates carrier service) ∧
    find_rate [⟨"USPS", "Priority", 12⟩, ⟨"USPS", "PriorityMailExpress", 28⟩]
        "USPS" "Priority" = some ⟨"USPS", "Priority", 12⟩ := by
  constructor
  · intro rates carrier service
    unfold find_rate specFindRate
    by_cases he : rates.isEmpty
    · have hnil : rates = [] := List.isEmpty_iff.mp he
      subst hnil
      simp [minByRate, Option.orElse]
    · simp only [he, Bool.false_eq_true, if_false]
      cases h1 : rates.find? (fun r => r.carrier == carrier && r.service == service) with
      | some r => simp [h1, Option.orElse]
      | none =>
        simp only [h1, Option.orElse, Option.none_orElse]
        cases h2 : rates.find? (fun r =>
            r.carrier.toLower == carrier.toLower && r.service.toLower == service.toLower) with
        | some r => simp [h2, Option.orElse]
        | none =>
          simp only [h2, Option.orElse]
          cases h3 : rates.find? (fun r => r.carrier.toLower == carrier.toLower &&
              (strContains r.service.toLower service.toLower ||
               strContains service.toLower r.service.toLower)) with
          | some r => simp [h3, Option.orElse]
          | none =>
            simp only [h3, Option.orElse]
            by_cases hcr : (rates.filter (fun r => r.carrier.toLower == carrier.toLower)).isEmpty
            · have hnil : rates.filter (fun r => r.carrier.toLower == carrier.toLower) = [] :=
                List.isEmpty_iff.mp hcr
              simp [hcr, hnil, minByRate, Option.orElse]
            · have hne : rates.filter (fun r => r.carrier.toLower == carrier.toLower) ≠ [] :=
                fun h => hcr (by simp [h])
              obtain ⟨m, hm⟩ := minByRate_some_of_ne_nil _ hne
              simp [hcr, hm, Option.orElse]
  · decide

/-! ## Claim C6: duplicate and unknown scans are reported, not raised -/

/-- C6: for a QR code whose pick item is already picked, `scan_pick_item`
returns a failure result (success = false) whose message names the original
pick time, raises no exception, does not set `picked_at` again, and leaves
the pick item, its batch, its order, every other pick item and all inventory
state unchanged (the returned state is the input state); a QR code matching
no pick item likewise yields a failure result, not an exception. -/
theorem C6_rescan_and_unknown_qr_are_noops (db : DB) (qr : String) (now : Nat) :
    (∀ pi, db.pickItems.find? (fun i => i.qr_code == qr) = some pi → pi.picked = true →
      scan_pick_item db qr now = .ok (db,
        { success := false,
          message := "Already picked at " ++
            (match pi.picked_at with | some t => fmtHMS t | none => "unknown"),
          pick_item := some pi.id })) ∧
    (db.pickItems.find? (fun i => i.qr_code == qr) = none →
      scan_pick_item db qr now = .ok (db,
        { success := false, message := "QR code not found", pick_item := none })) := by
  constructor
  · intro pi h hpicked
    unfold scan_pick_item
    rw [h]
    simp [hpicked]
  · intro h
    unfold scan_pick_item
    rw [h]

/-- Concrete fixture for the C6 witness: one already-picked pick item. -/
def piC6 : PickItem :=
  { id := "k1", picking_list_id := "pl", order_id := "o", qr_code := "QR9",
    picked := true, picked_at := some 3 }

def dbC6 : DB := { pickItems := [piC6] }

theorem C6_witness :
    scan_pick_item dbC6 "QR9" 7 = .ok (dbC6,
      { success := false, message := "Already picked at " ++ fmtHMS 3,
        pick_item := some "k1" }) ∧
    scan_pick_item dbC6 "NOPE" 7 = .ok (dbC6,
      { success := false, message := "QR code not found", pick_item := none }) := by
  constructor
  · exact (C6_rescan_and_unknown_qr_are_noops dbC6 "QR9" 7).1 piC6 (by decide) (by decide)
  · exact (C6_rescan_and_unknown_qr_are_noops dbC6 "NOPE" 7).2 (by decide)

/-! ## Claim C5: batch creation is validated all-or-nothing -/

/-- C5: `create_picking_list` fails with a validation error whenever any
fetched order is not currently `pending`, or any referenced order already
has pick items in a batch whose status is `active` or `processing`; and on
every such failure it is all-or-nothing — the transaction never commits, so
zero pick items are created, no picking list is created, and no order's
status changes (the committed state equals the input state). -/
theorem C5_batch_validation_all_or_nothing (settings : Settings) (db : DB)
    (order_ids : List String) (plid plnum : String) (pickIds qrs : Nat → String)
    (h : (∃ o ∈ db.orders.filter (fun o => order_ids.contains o.id), o.status ≠ St.pending) ∨
         (∃ i ∈ db.pickItems, order_ids.contains i.order_id = true ∧
            ∃ l, db.findPickingList i.picking_list_id = some l ∧
              (l.status = PLStatus.active ∨ l.status = PLStatus.processing))) :
    (∃ msg, create_picking_list db order_ids plid plnum pickIds qrs = .error (.valueError msg)) ∧
    applyOp settings db (.mkBatch order_ids plid plnum pickIds qrs) = db := by
  have herr : ∃ msg, create_picking_list db order_ids plid plnum pickIds qrs = .error (.valueError msg) := by
    unfold create_picking_list
    dsimp only
    cases h0 : (db.orders.filter (fun o => order_ids.contains o.id)).isEmpty with
    | true => rw [if_pos rfl]; exact ⟨_, rfl⟩
    | false =>
      rw [if_neg (by simp)]
      cases h1 : ((db.orders.filter (fun o => order_ids.contains o.id)).filter
          (fun o => o.status != St.pending)).isEmpty with
      | false => rw [if_pos (by simp)]; exact ⟨_, rfl⟩
      | true =>
        rw [if_neg (by simp)]
        cases h2 : (db.pickItems.filter (fun i =>
            order_ids.contains i.order_id &&
            (match db.findPickingList i.picking_list_id with
             | some l => l.status == PLStatus.active || l.status == PLStatus.processing
             | none => false))).isEmpty with
        | false => rw [if_pos (by simp)]; exact ⟨_, rfl⟩
        | true =>
          exfalso
          rcases h with ⟨o, ho, hst⟩ | ⟨i, hi, hc, l, hl, hls⟩
          · have hmem : o ∈ (db.orders.filter (fun o => order_ids.contains o.id)).filter
                (fun o => o.status != St.pending) := by
              refine List.mem_filter.mpr ⟨ho, ?_⟩
              simpa using hst
            rw [List.isEmpty_iff.mp h1] at hmem
            exact absurd hmem (List.not_mem_nil o)
          · have hmem : i ∈ db.pickItems.filter (fun i =>
                order_ids.contains i.order_id &&
                (match db.findPickingList i.picking_list_id with
                 | some l => l.status == PLStatus.active || l.status == PLStatus.processing
                 | none => false)) := by
              refine List.mem_filter.mpr ⟨hi, ?_⟩
              rw [hc, hl]
              rcases hls with hls | hls <;> simp [hls]
            rw [List.isEmpty_iff.mp h2] at hmem
            exact absurd hmem (List.not_mem_nil i)
  refine ⟨herr, ?_⟩
  obtain ⟨msg, hmsg⟩ := herr
  simp [applyOp, hmsg]

/-- Concrete fixture for the C5 witness: `o2` is already `processing`. -/
def dbC5 : DB :=
  { orders := [{ id := "o1", order_number := "N1", status := .pending },
               { id := "o2", order_number := "N2", status := .processing }] }

theorem C5_witness :
    (∃ msg, create_picking_list dbC5 ["o1", "o2"] "pl" "PL" (fun n => toString n)
        (fun n => toString n) = .error (.valueError msg)) ∧
    applyOp {} dbC5 (.mkBatch ["o1", "o2"] "pl" "PL" (fun n => toString n)
        (fun n => toString n)) = dbC5 :=
  C5_batch_validation_all_or_nothing {} dbC5 ["o1", "o2"] "pl" "PL" _ _
    (Or.inl ⟨{ id := "o2", order_number := "N2", status := .processing }, by decide, by decide⟩)

/-! ## Claim C3: the two-line-item batching scenario -/

/-- A pending order with two line items of quantities 2 and 1. -/
def ordC3 : Order :=
  { id := "o1", order_number := "ORD1", status := .pending,
    items := [{ id := "i0", order_id := "o1", product_id := "p1", sku := "SKU1",
                product_name := "Widget", quantity := 2, unit_price := 5 },
              { id := "i1", order_id := "o1", product_id := "p1", sku := "SKU1",
                product_name := "Widget", quantity := 1, unit_price := 5 }] }

def dbC3 : DB := { orders := [ordC3] }

/-- The committed state after batching the order (QR codes Q0, Q1, Q2). -/
def dbC3b : DB :=
  applyOp {} dbC3 (.mkBatch ["o1"] "pl1" "PL1"
    (fun n => "K" ++ toString n) (fun n => "Q" ++ toString n))

/-- C3: batching the pending order with line items of quantities 2 and 1
creates exactly 3 pick items — sequences 1 and 2 for the first line item and
1 for the second — and moves the order to `processing`; but the first unit
scan cannot set the order to `packing`: the `OrderStatus` enum declares no
`PACKING` member, so `scan_pick_item` raises `AttributeError` (and commits
nothing) instead of returning the claimed progression to `packing` and then
`packed`. -/
theorem C3_pick_expansion_and_missing_packing_member :
    dbC3b.pickItems.map (fun i => (i.order_item_id, i.sequence, i.qr_code)) =
      [("i0", 1, "Q0"), ("i0", 2, "Q1"), ("i1", 1, "Q2")] ∧
    (dbC3b.findOrder "o1").map Order.status = some .processing ∧
    St.isEnumMember .packing = false ∧
    scan_pick_item dbC3b "Q0" 5 = .error (.attributeError "PACKING") := by
  refine ⟨by decide, by decide, rfl, rfl⟩

/-! ## Characterisation of `create_order` -/

@[simp] theorem orders_mapProduct (db : DB) (pid : String) (f : Product → Product) :
    (db.mapProduct pid f).orders = db.orders := rfl

@[simp] theorem orders_mapVariant (db : DB) (vid : String) (f : Variant → Variant) :
    (db.mapVariant vid f).orders = db.orders := rfl

@[simp] theorem orders_addLog (db : DB) (l : InventoryLog) :
    (db.addLog l).orders = db.orders := rfl

@[simp] theorem orders_mapPickingList (db : DB) (plid : String) (f : PickingList → PickingList) :
    (db.mapPickingList plid f).orders = db.orders := rfl

/-- The first hit of `findOrder` is updated in place by `mapOrder` on the
same id, provided the update keeps the id. -/
theorem findOrder_mapOrder_self (db : DB) (oid : String) (f : Order → Order) (o : Order)
    (h : db.findOrder oid = some o) (hid : (f o).id = o.id) :
    (db.mapOrder oid f).findOrder oid = some (f o) := by
  have h' : db.orders.find? (fun x => x.id == oid) = some o := h
  have hp := List.find?_some h'
  have hfp : ((fun (x : Order) => x.id == oid) (f o)) = true := by
    show ((f o).id == oid) = true
    rw [hid]
    exact hp
  exact find?_map_update (fun (x : Order) => x.id == oid) f db.orders o h' hfp

/-- `findProduct` analogue of `findOrder_mapOrder_self`. -/
theorem findOrder_mapProduct_self (db : DB) (pid : String) (f : Product → Product) (p : Product)
    (h : db.findProduct pid = some p) (hid : (f p).id = p.id) :
    (db.mapProduct pid f).findProduct pid = some (f p) := by
  have h' : db.products.find? (fun x => x.id == pid) = some p := h
  have hp := List.find?_some h'
  have hfp : ((fun (x : Product) => x.id == pid) (f p)) = true := by
    show ((f p).id == pid) = true
    rw [hid]
    exact hp
  exact find?_map_update (fun (x : Product) => x.id == pid) f db.products p h' hfp

/-- `findVariant` analogue of `findOrder_mapOrder_self`. -/
theorem findVariant_mapVariant_self (db : DB) (vid : String) (f : Variant → Variant) (v : Variant)
    (h : db.findVariant vid = some v) (hid : (f v).id = v.id) :
    (db.mapVariant vid f).findVariant vid = some (f v) := by
  have h' : db.variants.find? (fun x => x.id == vid) = some v := h
  have hp := List.find?_some h'
  have hfp : ((fun (x : Variant) => x.id == vid) (f v)) = true := by
    show ((f v).id == vid) = true
    rw [hid]
    exact hp
  exact find?_map_update (fun (x : Variant) => x.id == vid) f db.variants v h' hfp

theorem createOrderItems_spec (oid onum : String) (itemIds : Nat → String) :
    ∀ (ds : List OrderItemCreate) (db : DB) (i : Nat) (db' : DB) (t : Nat),
      createOrderItems oid onum itemIds db ds i = .ok (db', t) →
      ((∀ rid, db'.refSum rid = db.refSum rid + (if oid = rid then -(t : Int) else 0)) ∧
       (∃ newLogs, db'.invLogs = db.invLogs ++ newLogs ∧
          newLogs.map (fun l => (l.change, l.reason, l.reference_id)) =
            ds.map (fun d => (-(d.quantity : Int), "order", oid))) ∧
       (∀ o, db.findOrder oid = some o →
         ∃ newItems, db'.findOrder oid = some { o with items := o.items ++ newItems } ∧
           (newItems.map (fun it => it.quantity)).sum = t))
  | [], db, i, db', t, h => by
    simp only [createOrderItems] at h
    obtain ⟨hdb, ht⟩ : db = db' ∧ (0 : Nat) = t := by cases h; exact ⟨rfl, rfl⟩
    subst hdb; subst ht
    refine ⟨fun rid => by simp, ⟨[], by simp, by simp⟩, fun o ho => ⟨[], ?_, by simp⟩⟩
    simpa using ho
  | d :: rest, db, i, db', t, h => by
    simp only [createOrderItems] at h
    split at h
    · cases h
    · next product hp =>
      split at h
      · next hv =>
        split at h
        · cases h
        · next variant hvf =>
          split at h
          · cases h
          · next hq =>
            split at h
            · cases h
            · next db4 t' hrec =>
              obtain ⟨hdb, ht⟩ : db4 = db' ∧ d.quantity + t' = t := by
                cases h; exact ⟨rfl, rfl⟩
              obtain ⟨ih1, ⟨newLogs, ihL1, ihL2⟩, ih3⟩ :=
                createOrderItems_spec oid onum itemIds rest _ (i + 1) db4 t' hrec
              subst hdb; subst ht
              refine ⟨fun rid => ?_, ?_, fun o ho => ?_⟩
              · rw [ih1 rid, refSum_addLog]
                simp only [refSum_mapVariant, refSum_mapOrder]
                by_cases hr : oid = rid
                · simp only [hr, if_pos rfl, if_pos (rfl : rid = rid)]
                  push_cast
                  ring
                · simp only [if_neg hr, if_neg (fun hh => hr hh)]
                  ring
              · have hx : db4.invLogs = db.invLogs ++
                    ({ product_id := product.id, change := -(d.quantity : Int),
                       reason := "order", reference_id := oid,
                       balance_after := variant.quantity - (d.quantity : Int),
                       note := "[Variant " ++ variant.variant_sku ++ "] Reserved for order " ++ onum } :: newLogs) := by
                  rw [ihL1]; simp [DB.addLog]
                exact ⟨_, hx, by simp [ihL2]⟩
              · have hfo := findOrder_mapOrder_self db oid
                  (fun x => { x with items := x.items ++
                    [{ id := itemIds i, order_id := oid, product_id := product.id,
                       variant_id := variant.id, sku := product.sku,
                       variant_sku := variant.variant_sku,
                       variant_label := joinAttrVals variant.attributes,
                       product_name := product.name, quantity := d.quantity,
                       unit_price := if variant.price_override > 0 then variant.price_override else product.price }] })
                  o ho rfl
                obtain ⟨newItems, hni1, hni2⟩ := ih3 _ hfo
                have hx : db4.findOrder oid = some { o with items := o.items ++
                    ({ id := itemIds i, order_id := oid, product_id := product.id,
                       variant_id := variant.id, sku := product.sku,
                       variant_sku := variant.variant_sku,
                       variant_label := joinAttrVals variant.attributes,
                       product_name := product.name, quantity := d.quantity,
                       unit_price := if variant.price_override > 0 then variant.price_override else product.price : OrderItem } :: newItems) } := by
                  rw [hni1]; simp [List.append_assoc]
                exact ⟨_, hx, by simp [hni2]⟩
      · next hv =>
        split at h
        · cases h
        · next hq =>
          split at h
          · cases h
          · next db4 t' hrec =>
            obtain ⟨hdb, ht⟩ : db4 = db' ∧ d.quantity + t' = t := by
              cases h; exact ⟨rfl, rfl⟩
            obtain ⟨ih1, ⟨newLogs, ihL1, ihL2⟩, ih3⟩ :=
              createOrderItems_spec oid onum itemIds rest _ (i + 1) db4 t' hrec
            subst hdb; subst ht
            refine ⟨fun rid => ?_, ?_, fun o ho => ?_⟩
            · rw [ih1 rid, refSum_addLog]
              simp only [refSum_mapProduct, refSum_mapOrder]
              by_cases hr : oid = rid
              · simp only [hr, if_pos rfl, if_pos (rfl : rid = rid)]
                push_cast
                ring
              · simp only [if_neg hr, if_neg (fun hh => hr hh)]
                ring
            · have hx : db4.invLogs = db.invLogs ++
                  ({ product_id := product.id, change := -(d.quantity : Int),
                     reason := "order", reference_id := oid,
                     balance_after := product.quantity - (d.quantity : Int),
                     note := "Reserved for order " ++ onum } :: newLogs) := by
                rw [ihL1]; simp [DB.addLog]
              exact ⟨_, hx, by simp [ihL2]⟩
            · have hfo := findOrder_mapOrder_self db oid
                (fun x => { x with items := x.items ++
                  [{ id := itemIds i, order_id := oid, product_id := product.id,
                     variant_id := "", sku := product.sku, variant_sku := "",
                     variant_label := "", product_name := product.name,
                     quantity := d.quantity, unit_price := product.price }] })
                o ho rfl
              obtain ⟨newItems, hni1, hni2⟩ := ih3 _ hfo
              have hx : db4.findOrder oid = some { o with items := o.items ++
                  ({ id := itemIds i, order_id := oid, product_id := product.id,
                     variant_id := "", sku := product.sku, variant_sku := "",
                     variant_label := "", product_name := product.name,
                     quantity := d.quantity, unit_price := product.price : OrderItem } :: newItems) } := by
                rw [hni1]; simp [List.append_assoc]
              exact ⟨_, hx, by simp [hni2]⟩


theorem find?_append_of_none {α : Type} (l₁ l₂ : List α) (p : α → Bool)
    (h : l₁.find? p = none) : (l₁ ++ l₂).find? p = l₂.find? p := by
  induction l₁ with
  | nil => simp
  | cons a l ih =>
    cases hpa : p a with
    | true => simp [List.find?, hpa] at h
    | false =>
      simp only [List.find?, hpa] at h
      simp only [List.cons_append, List.find?, hpa]
      exact ih h

/-- What `create_order` commits when it succeeds on a fresh order id: the
order row exists with status `pending`; `total_price = processing_fee` (the
item subtotal is not included at creation — "shipping added when label
purchased") with zero shipping cost; the fee is units × fee-per-item; one
`order` ledger row per line item referencing the order id was appended; and
the ledger sum referencing the order id equals minus the reserved units. -/
theorem create_order_spec (settings : Settings) (db : DB) (data : OrderCreateData)
    (oid onum : String) (itemIds : Nat → String) (now : Nat) (db' : DB)
    (h : create_order settings db data oid onum itemIds now = .ok db')
    (hfresh : db.findOrder oid = none) :
    ∃ o', db'.findOrder oid = some o' ∧
      o'.status = .pending ∧
      o'.processing_fee = (orderUnits o' : Rat) * settings.PROCESSING_FEE_PER_ITEM ∧
      o'.total_price = o'.processing_fee ∧
      o'.shipping_cost = 0 ∧
      (∀ rid, db'.refSum rid = db.refSum rid + (if oid = rid then -(orderUnits o' : Int) else 0)) ∧
      (∃ newLogs, db'.invLogs = db.invLogs ++ newLogs ∧
        newLogs.map (fun l => (l.change, l.reason, l.reference_id)) =
          data.items.map (fun d => (-(d.quantity : Int), "order", oid))) := by
  simp only [create_order] at h
  split at h
  · cases h
  · next db1 total hloop =>
    obtain ⟨ih1, ihL, ih3⟩ := createOrderItems_spec oid onum itemIds data.items _ 0 db1 total hloop
    have horder0 : ({ db with orders := db.orders ++
        [{ id := oid, order_number := onum, status := .pending,
           ship_to_street1 := data.ship_to_street1, ship_to_zip := data.ship_to_zip,
           ship_from_street1 := data.ship_from_street1 }] } : DB).findOrder oid =
        some { id := oid, order_number := onum, status := .pending,
               ship_to_street1 := data.ship_to_street1, ship_to_zip := data.ship_to_zip,
               ship_from_street1 := data.ship_from_street1 } := by
      show (db.orders ++ [_]).find? _ = _
      rw [find?_append_of_none _ _ _ hfresh]
      simp [List.find?]
    obtain ⟨newItems, hni1, hni2⟩ := ih3 _ horder0
    obtain hdbeq : db1.mapOrder oid (fun o =>
        addStatusHistory { o with processing_fee := (total : Rat) * settings.PROCESSING_FEE_PER_ITEM,
                                  total_price := (total : Rat) * settings.PROCESSING_FEE_PER_ITEM }
          "pending" "Order created" now) = db' := by
      cases h; rfl
    subst hdbeq
    have hfind := findOrder_mapOrder_self db1 oid
      (fun o => addStatusHistory { o with
          processing_fee := (total : Rat) * settings.PROCESSING_FEE_PER_ITEM,
          total_price := (total : Rat) * settings.PROCESSING_FEE_PER_ITEM }
        "pending" "Order created" now) _ hni1 rfl
    refine ⟨_, hfind, rfl, ?_, rfl, rfl, ?_, ?_⟩
    · simp only [addStatusHistory, orderUnits, List.nil_append, hni2]
    · intro rid
      rw [refSum_mapOrder, ih1 rid]
      simp only [addStatusHistory, orderUnits, List.nil_append, hni2]
      rfl
    · obtain ⟨newLogs, hl1, hl2⟩ := ihL
      exact ⟨newLogs, by rw [invLogs_mapOrder, hl1], hl2⟩

/-! ## Characterisation of `buy_label` and `refund_shipment` successes -/

/-- A successful `buy_label` leaves the order with
`total_price = item subtotal + processing_fee + shipping_cost`, status
`label_purchased`, and the carrier response's shipment id / label URL
(empty when the response carried no postage label). -/
theorem buy_label_ok_spec (settings : Settings) (db : DB) (order_id carrier service : String)
    (client : EPClient) (now : Nat) (db' : DB)
    (h : buy_label settings db order_id carrier service client now = .ok db') :
    ∃ o', db'.findOrder order_id = some o' ∧
      o'.total_price = itemSubtotal o' + o'.processing_fee + o'.shipping_cost ∧
      o'.status = .label_purchased ∧
      o'.easypost_shipment_id = client.bought.id ∧
      o'.label_url = (match client.bought.postage_label with
        | some p => p.label_url
        | none => "") := by
  simp only [buy_label] at h
  split at h
  · cases h
  · next o hfind =>
    split at h
    · cases h
    · next hguard =>
      split at h
      · cases h
      · split at h
        · cases h
        · split at h
          · cases h
          · split at h
            · cases h
            · split at h
              · cases h
              · split at h
                · cases h
                · split at h
                  · cases h
                  · next sel hsel =>
                    obtain hdbeq : _ = db' := by cases h; rfl
                    subst hdbeq
                    have hid : o.id = order_id := by
                      have hb := List.find?_some
                        (show db.orders.find? (fun x => x.id == order_id) = some o from hfind)
                      exact eq_of_beq hb
                    rw [hid]
                    exact ⟨_, findOrder_mapOrder_self db order_id _ o hfind rfl,
                      by simp [itemSubtotal, addStatusHistory], rfl, rfl, rfl⟩

/-- A successful `refund_shipment` leaves the order with zero shipping cost
and `total_price = item subtotal + processing_fee`. -/
theorem refund_ok_spec (settings : Settings) (db : DB) (oid : String) (o : Order) (db' : DB)
    (hfind : db.findOrder oid = some o) (hid : o.id = oid)
    (h : refund_shipment settings db o = .ok db') :
    ∃ o', db'.findOrder oid = some o' ∧
      o'.total_price = itemSubtotal o' + o'.processing_fee ∧
      o'.shipping_cost = 0 ∧
      o'.label_url = "" ∧ o'.tracking_number = "" := by
  simp only [refund_shipment] at h
  split at h
  · cases h
  · split at h
    · cases h
    · obtain hdbeq : _ = db' := by cases h; rfl
      subst hdbeq
      rw [← hid] at hfind ⊢
      exact ⟨_, findOrder_mapOrder_self db o.id _ o hfind rfl,
        by simp [itemSubtotal], rfl, rfl, rfl⟩

/-! ## Claim C4: the pricing equation -/

def pC4 : Product := { id := "p4", sku := "S4", name := "Gadget", price := 5, quantity := 10 }

def dbC4 : DB := { products := [pC4] }

def dataC4 : OrderCreateData :=
  { items := [{ product_id := "p4", quantity := 1 }],
    ship_to_street1 := "A St", ship_to_zip := "77001" }

/-- The committed state after creating the one-line order `o4`. -/
def dbC4o : DB :=
  applyOp {} dbC4 (.createOrd dataC4 "o4" "ORD4" (fun n => "it" ++ toString n) 0)

/-- C4 counterexample: immediately after `create_order`, `total_price` is the
processing fee alone (1/2) while item subtotal + fee + shipping = 11/2 — the
claimed equation does not hold at creation. -/
theorem C4_counterexample :
    (dbC4o.findOrder "o4").map
        (fun o => (o.total_price, o.processing_fee, o.shipping_cost, itemSubtotal o)) =
      some (1/2, 1/2, 0, 5) ∧
    ¬((1 : Rat)/2 = 5 + 1/2 + 0) := by
  constructor
  · norm_num [dbC4o, applyOp, dataC4, dbC4, pC4, create_order, createOrderItems,
      DB.findProduct, DB.findOrder, DB.mapOrder, DB.mapProduct, DB.addLog,
      addStatusHistory, itemSubtotal, List.find?]
  · norm_num

/-- C4 amended: after `buy_label` and after `refund_shipment` the order
satisfies `total_price = item subtotal + processing_fee + shipping_cost`
(with the shipping cost zeroed by the refund); but immediately after
`create_order` the equation does not hold in general — the code sets
`total_price = processing_fee` only, leaving the item subtotal out until a
label is purchased. -/
theorem C4_pricing_equation_amended :
    (∀ (settings : Settings) (db : DB) (data : OrderCreateData) (oid onum : String)
        (itemIds : Nat → String) (now : Nat) (db' : DB),
      create_order settings db data oid onum itemIds now = .ok db' →
      db.findOrder oid = none →
      ∃ o', db'.findOrder oid = some o' ∧
        o'.total_price = o'.processing_fee ∧ o'.shipping_cost = 0) ∧
    (∀ (settings : Settings) (db : DB) (order_id carrier service : String)
        (client : EPClient) (now : Nat) (db' : DB),
      buy_label settings db order_id carrier service client now = .ok db' →
      ∃ o', db'.findOrder order_id = some o' ∧
        o'.total_price = itemSubtotal o' + o'.processing_fee + o'.shipping_cost) ∧
    (∀ (settings : Settings) (db : DB) (oid : String) (o : Order) (db' : DB),
      db.findOrder oid = some o → o.id = oid →
      refund_shipment settings db o = .ok db' →
      ∃ o', db'.findOrder oid = some o' ∧
        o'.total_price = itemSubtotal o' + o'.processing_fee + o'.shipping_cost ∧
        o'.shipping_cost = 0) := by
  refine ⟨?_, ?_, ?_⟩
  · intro settings db data oid onum itemIds now db' h hfresh
    obtain ⟨o', h1, _, _, h4, h5, _⟩ := create_order_spec settings db data oid onum itemIds now db' h hfresh
    exact ⟨o', h1, h4, h5⟩
  · intro settings db order_id carrier service client now db' h
    obtain ⟨o', h1, h2, _⟩ := buy_label_ok_spec settings db order_id carrier service client now db' h
    exact ⟨o', h1, h2⟩
  · intro settings db oid o db' hfind hid h
    obtain ⟨o', h1, h2, h3, _⟩ := refund_ok_spec settings db oid o db' hfind hid h
    exact ⟨o', h1, by rw [h2, h3]; ring, h3⟩

/-- Fixture for the buy/refund legs of the C4 witness. -/
def ordC4b : Order :=
  { id := "ob", order_number := "OB", status := .pending, processing_fee := 1,
    items := [{ id := "x", order_id := "ob", product_id := "p", sku := "s",
                quantity := 2, unit_price := 3 }],
    ship_to_street1 := "A", ship_to_zip := "Z" }

def dbC4b : DB := { orders := [ordC4b] }

def clientC4 : EPClient :=
  { rates := [⟨"USPS", "GroundAdvantage", 7⟩],
    bought := { id := "shp9", tracking_code := "TRK9",
                postage_label := some ⟨"http://lbl"⟩ } }

/-- The committed state after buying a label for `ob`. -/
def dbC4bb : DB := applyOp {} dbC4b (.buyLab "ob" "USPS" "GroundAdvantage" clientC4 3)

/-- The row of `ob` after the label purchase. -/
def ordC4bb : Order := (dbC4bb.findOrder "ob").getD { id := "ob" }

theorem C4_witness :
    (∃ o', dbC4o.findOrder "o4" = some o' ∧
      o'.total_price = o'.processing_fee ∧ o'.shipping_cost = 0) ∧
    (∃ o', dbC4bb.findOrder "ob" = some o' ∧
      o'.total_price = itemSubtotal o' + o'.processing_fee + o'.shipping_cost) ∧
    (∃ o', (applyOp {} dbC4bb (.refundShip "ob")).findOrder "ob" = some o' ∧
      o'.total_price = itemSubtotal o' + o'.processing_fee + o'.shipping_cost ∧
      o'.shipping_cost = 0) := by
  refine ⟨?_, ?_, ?_⟩
  · exact C4_pricing_equation_amended.1 {} dbC4 dataC4 "o4" "ORD4"
      (fun n => "it" ++ toString n) 0 dbC4o rfl rfl
  · exact C4_pricing_equation_amended.2.1 {} dbC4b "ob" "USPS" "GroundAdvantage" clientC4 3 dbC4bb rfl
  · exact C4_pricing_equation_amended.2.2 {} dbC4bb "ob" ordC4bb _ rfl rfl rfl

/-! ## Claim C7: the label-purchase idempotency guard -/

/-- The guard of `buy_label` (shipping_service.py line 143) fires exactly
when both `easypost_shipment_id` and `label_url` are non-empty. -/
theorem buy_label_guard (settings : Settings) (db : DB) (oid c s : String)
    (client : EPClient) (now : Nat) (o : Order)
    (hfind : db.findOrder oid = some o)
    (h1 : o.easypost_shipment_id ≠ "") (h2 : o.label_url ≠ "") :
    buy_label settings db oid c s client now =
      .error (.valueError "Label already purchased for this order") := by
  simp only [buy_label, hfind]
  rw [if_pos ⟨h1, h2⟩]

def ordC7 : Order :=
  { id := "o7", order_number := "O7", status := .pending,
    ship_to_street1 := "A", ship_to_zip := "Z" }

def dbC7 : DB := { orders := [ordC7] }

/-- First purchase response: carrier returned no postage label. -/
def clientC7a : EPClient :=
  { rates := [⟨"USPS", "GroundAdvantage", 7⟩],
    bought := { id := "shpA", tracking_code := "T1", postage_label := none } }

def dbC7a : DB := applyOp {} dbC7 (.buyLab "o7" "USPS" "GroundAdvantage" clientC7a 1)

/-- C7 counterexample: the first `buy_label` succeeds but the carrier's
response carried no postage label, so `label_url` stays empty; the guard
`easypost_shipment_id and label_url` then does not fire and a second
`buy_label` call also succeeds — a second purchase is issued to the carrier,
falsifying "every subsequent buy_label call fails ... for every possible
carrier response to the first purchase". -/
theorem C7_counterexample :
    isOkResult (buy_label {} dbC7 "o7" "USPS" "GroundAdvantage" clientC7a 1) = true ∧
    (dbC7a.findOrder "o7").map (fun o => (o.easypost_shipment_id, o.label_url)) =
      some ("shpA", "") ∧
    isOkResult (buy_label {} dbC7a "o7" "USPS" "GroundAdvantage" clientC7a 2) = true :=
  ⟨rfl, rfl, rfl⟩

/-- C7 amended: the idempotency guard rejects a repeat `buy_label` exactly
when the stored `easypost_shipment_id` and `label_url` are both non-empty;
consequently, after a successful purchase whose carrier response included a
postage label with a non-empty URL (and a non-empty shipment id), every
subsequent `buy_label` call for that order fails before any second purchase
is issued — but when the first response lacked the postage label, the guard
does not fire and a second purchase goes through. -/
theorem C7_idempotency_guard_amended :
    (∀ (settings : Settings) (db : DB) (oid c s : String) (client : EPClient)
        (now : Nat) (o : Order),
      db.findOrder oid = some o →
      o.easypost_shipment_id ≠ "" → o.label_url ≠ "" →
      buy_label settings db oid c s client now =
        .error (.valueError "Label already purchased for this order")) ∧
    (∀ (settings : Settings) (db : DB) (oid c s : String) (client : EPClient)
        (now : Nat) (db' : DB) (pl : PostageLabel),
      buy_label settings db oid c s client now = .ok db' →
      client.bought.postage_label = some pl → pl.label_url ≠ "" →
      client.bought.id ≠ "" →
      ∀ (c2 s2 : String) (client2 : EPClient) (now2 : Nat),
        buy_label settings db' oid c2 s2 client2 now2 =
          .error (.valueError "Label already purchased for this order")) := by
  constructor
  · exact buy_label_guard
  · intro settings db oid c s client now db' pl h hpl hurl hid c2 s2 client2 now2
    obtain ⟨o', hfind, _, _, hship, hlbl⟩ :=
      buy_label_ok_spec settings db oid c s client now db' h
    refine buy_label_guard settings db' oid c2 s2 client2 now2 o' hfind ?_ ?_
    · rw [hship]; exact hid
    · rw [hlbl, hpl]; exact hurl

/-- Order that already has both a shipment id and a label URL stored. -/
def ordC7g : Order :=
  { id := "og", order_number := "OG", status := .label_purchased,
    easypost_shipment_id := "shpG", label_url := "http://lblG",
    ship_to_street1 := "A", ship_to_zip := "Z" }

def dbC7g : DB := { orders := [ordC7g] }

theorem C7_witness :
    buy_label {} dbC7g "og" "" "" clientC7a 0 =
      .error (.valueError "Label already purchased for this order") ∧
    buy_label {} dbC4bb "ob" "" "" clientC7a 9 =
      .error (.valueError "Label already purchased for this order") := by
  constructor
  · exact C7_idempotency_guard_amended.1 {} dbC7g "og" "" "" clientC7a 0 ordC7g rfl
      (by decide) (by decide)
  · exact C7_idempotency_guard_amended.2 {} dbC4b "ob" "USPS" "GroundAdvantage" clientC4 3 dbC4bb
      ⟨"http://lbl"⟩ rfl rfl (by decide) (by decide) "" "" clientC7a 9

/-! ## Characterisation of `cancel_order` -/

theorem find?_isSome_map_update {α : Type} (p : α → Bool) (g : α → α)
    (hpg : ∀ x, p (g x) = p x) :
    ∀ l : List α, ((l.map g).find? p).isSome = (l.find? p).isSome
  | [] => rfl
  | x :: xs => by
    cases hx : p x with
    | true =>
      have hgx : p (g x) = true := by rw [hpg]; exact hx
      rw [List.map_cons, List.find?_cons_of_pos _ hgx, List.find?_cons_of_pos _ hx]
      rfl
    | false =>
      have hgx : ¬ p (g x) := by rw [hpg, hx]; exact Bool.false_ne_true
      rw [List.map_cons, List.find?_cons_of_neg _ hgx,
        List.find?_cons_of_neg _ (by rw [hx]; exact Bool.false_ne_true)]
      exact find?_isSome_map_update p g hpg xs

/-- A line item can be restored by `cancel_order` iff its variant (resp.
product) row still exists. -/
def itemRestorable (db : DB) (it : OrderItem) : Bool :=
  if it.variant_id ≠ "" then (db.findVariant it.variant_id).isSome
  else (db.findProduct it.product_id).isSome

/-- The amount `cancel_order` adds back to the ledger: the sum of quantities
of the restorable line items. -/
def restoreAmount (db : DB) (items : List OrderItem) : Int :=
  (items.map (fun it => if itemRestorable db it then (it.quantity : Int) else 0)).sum

theorem itemRestorable_mapVariant (db : DB) (vid : String) (f : Variant → Variant)
    (hf : ∀ v, (f v).id = v.id) (it : OrderItem) :
    itemRestorable (db.mapVariant vid f) it = itemRestorable db it := by
  unfold itemRestorable
  by_cases hv : it.variant_id ≠ ""
  · rw [if_pos hv, if_pos hv]
    exact find?_isSome_map_update _ _ (fun v => by by_cases h : v.id == vid <;> simp [h, hf]) _
  · rw [if_neg hv, if_neg hv]
    rfl

theorem itemRestorable_mapProduct (db : DB) (pid : String) (f : Product → Product)
    (hf : ∀ p, (f p).id = p.id) (it : OrderItem) :
    itemRestorable (db.mapProduct pid f) it = itemRestorable db it := by
  unfold itemRestorable
  by_cases hv : it.variant_id ≠ ""
  · rw [if_pos hv, if_pos hv]
    rfl
  · rw [if_neg hv, if_neg hv]
    exact find?_isSome_map_update _ _ (fun p => by by_cases h : p.id == pid <;> simp [h, hf]) _

theorem itemRestorable_addLog (db : DB) (lg : InventoryLog) (it : OrderItem) :
    itemRestorable (db.addLog lg) it = itemRestorable db it := rfl

theorem orders_cancelRestore (o : Order) :
    ∀ (items : List OrderItem) (db : DB), (cancelRestore o db items).orders = db.orders
  | [], db => rfl
  | it :: rest, db => by
    simp only [cancelRestore]
    by_cases hv : it.variant_id ≠ ""
    · rw [if_pos hv]
      cases hvf : db.findVariant it.variant_id with
      | some variant => rw [orders_cancelRestore o rest]; rfl
      | none => rw [orders_cancelRestore o rest]
    · rw [if_neg hv]
      cases hpf : db.findProduct it.product_id with
      | some product => rw [orders_cancelRestore o rest]; rfl
      | none => rw [orders_cancelRestore o rest]

theorem restoreAmount_congr (db1 db2 : DB)
    (h : ∀ it, itemRestorable db1 it = itemRestorable db2 it) :
    ∀ items, restoreAmount db1 items = restoreAmount db2 items
  | [] => rfl
  | a :: l => by
    simp only [restoreAmount, List.map_cons, List.sum_cons, h a]
    have := restoreAmount_congr db1 db2 h l
    simp only [restoreAmount] at this
    rw [this]

theorem cancelRestore_spec (o : Order) :
    ∀ (items : List OrderItem) (db : DB),
      (∀ rid, (cancelRestore o db items).refSum rid =
        db.refSum rid + (if o.id = rid then restoreAmount db items else 0)) ∧
      (∃ newLogs, (cancelRestore o db items).invLogs = db.invLogs ++ newLogs ∧
        newLogs.map (fun l => (l.change, l.reason, l.reference_id)) =
          (items.filter (itemRestorable db)).map
            (fun it => ((it.quantity : Int), "order_cancelled", o.id)))
  | [], db => by
    exact ⟨fun rid => by simp [cancelRestore, restoreAmount],
      ⟨[], by simp [cancelRestore], by simp⟩⟩
  | it :: rest, db => by
    have hrest := fun dbx => cancelRestore_spec o rest dbx
    simp only [cancelRestore]
    by_cases hv : it.variant_id ≠ ""
    · rw [if_pos hv]
      cases hvf : db.findVariant it.variant_id with
      | some variant =>
        simp only [hvf]
        have hrit : itemRestorable db it = true := by
          unfold itemRestorable
          rw [if_pos hv, hvf]
          rfl
        have hfun : itemRestorable ((db.mapVariant variant.id
            (fun v => { v with quantity := v.quantity + (it.quantity : Int) })).addLog
            { product_id := it.product_id, change := (it.quantity : Int),
              reason := "order_cancelled", reference_id := o.id,
              balance_after := variant.quantity + (it.quantity : Int),
              note := "[Variant " ++ variant.variant_sku ++ "] Restored from cancelled order " ++ o.order_number }) =
            itemRestorable db := by
          funext x
          rw [itemRestorable_addLog, itemRestorable_mapVariant db variant.id
            (fun v => { v with quantity := v.quantity + (it.quantity : Int) }) (fun v => rfl) x]
        obtain ⟨ih1, ⟨newLogs, ihL1, ihL2⟩⟩ := hrest _
        constructor
        · intro rid
          rw [ih1 rid, refSum_addLog, refSum_mapVariant,
            restoreAmount_congr _ _ (fun x => congrFun hfun x) rest]
          simp only [restoreAmount, List.map_cons, List.sum_cons, hrit, if_pos]
          by_cases hr : o.id = rid
          · simp only [hr, if_pos rfl, if_pos (rfl : rid = rid), if_true]
            ring
          · simp only [if_neg hr, if_neg (fun hh => hr hh)]
            ring
        · have hx : (cancelRestore o ((db.mapVariant variant.id
              (fun v => { v with quantity := v.quantity + (it.quantity : Int) })).addLog
              { product_id := it.product_id, change := (it.quantity : Int),
                reason := "order_cancelled", reference_id := o.id,
                balance_after := variant.quantity + (it.quantity : Int),
                note := "[Variant " ++ variant.variant_sku ++ "] Restored from cancelled order " ++ o.order_number }) rest).invLogs =
              db.invLogs ++
                ({ product_id := it.product_id, change := (it.quantity : Int),
                   reason := "order_cancelled", reference_id := o.id,
                   balance_after := variant.quantity + (it.quantity : Int),
                   note := "[Variant " ++ variant.variant_sku ++ "] Restored from cancelled order " ++ o.order_number } :: newLogs) := by
            rw [ihL1]
            simp [DB.addLog]
          refine ⟨_, hx, ?_⟩
          simp only [List.map_cons, ihL2, hfun, List.filter_cons, hrit, if_pos, if_true,
            List.map_cons]
      | none =>
        simp only [hvf]
        have hrit : itemRestorable db it = false := by
          unfold itemRestorable
          rw [if_pos hv, hvf]
          rfl
        obtain ⟨ih1, ⟨newLogs, ihL1, ihL2⟩⟩ := hrest db
        constructor
        · intro rid
          rw [ih1 rid]
          simp only [restoreAmount, List.map_cons, List.sum_cons, hrit, Bool.false_eq_true,
            if_false, zero_add]
        · refine ⟨newLogs, ihL1, ?_⟩
          rw [ihL2]
          simp [List.filter_cons, hrit]
    · rw [if_neg hv]
      cases hpf : db.findProduct it.product_id with
      | some product =>
        simp only [hpf]
        have hrit : itemRestorable db it = true := by
          unfold itemRestorable
          rw [if_neg hv, hpf]
          rfl
        have hfun : itemRestorable ((db.mapProduct product.id
            (fun p => { p with quantity := p.quantity + (it.quantity : Int) })).addLog
            { product_id := product.id, change := (it.quantity : Int),
              reason := "order_cancelled", reference_id := o.id,
              balance_after := product.quantity + (it.quantity : Int),
              note := "Restored from cancelled order " ++ o.order_number }) =
            itemRestorable db := by
          funext x
          rw [itemRestorable_addLog, itemRestorable_mapProduct db product.id
            (fun p => { p with quantity := p.quantity + (it.quantity : Int) }) (fun p => rfl) x]
        obtain ⟨ih1, ⟨newLogs, ihL1, ihL2⟩⟩ := hrest _
        constructor
        · intro rid
          rw [ih1 rid, refSum_addLog, refSum_mapProduct,
            restoreAmount_congr _ _ (fun x => congrFun hfun x) rest]
          simp only [restoreAmount, List.map_cons, List.sum_cons, hrit, if_pos]
          by_cases hr : o.id = rid
          · simp only [hr, if_pos rfl, if_pos (rfl : rid = rid), if_true]
            ring
          · simp only [if_neg hr, if_neg (fun hh => hr hh)]
            ring
        · have hx : (cancelRestore o ((db.mapProduct product.id
              (fun p => { p with quantity := p.quantity + (it.quantity : Int) })).addLog
              { product_id := product.id, change := (it.quantity : Int),
                reason := "order_cancelled", reference_id := o.id,
                balance_after := product.quantity + (it.quantity : Int),
                note := "Restored from cancelled order " ++ o.order_number }) rest).invLogs =
              db.invLogs ++
                ({ product_id := product.id, change := (it.quantity : Int),
                   reason := "order_cancelled", reference_id := o.id,
                   balance_after := product.quantity + (it.quantity : Int),
                   note := "Restored from cancelled order " ++ o.order_number } :: newLogs) := by
            rw [ihL1]
            simp [DB.addLog]
          refine ⟨_, hx, ?_⟩
          simp only [List.map_cons, ihL2, hfun, List.filter_cons, hrit, if_pos, if_true,
            List.map_cons]
      | none =>
        simp only [hpf]
        have hrit : itemRestorable db it = false := by
          unfold itemRestorable
          rw [if_neg hv, hpf]
          rfl
        obtain ⟨ih1, ⟨newLogs, ihL1, ihL2⟩⟩ := hrest db
        constructor
        · intro rid
          rw [ih1 rid]
          simp only [restoreAmount, List.map_cons, List.sum_cons, hrit, Bool.false_eq_true,
            if_false, zero_add]
        · refine ⟨newLogs, ihL1, ?_⟩
          rw [ihL2]
          simp [List.filter_cons, hrit]

/-- What a successful `cancel_order` commits: the order row existed and was
not in a blocked status, the status is now `cancelled`, one compensating
`order_cancelled` ledger row was appended per restorable line item, and the
ledger sum referencing the order grew by the restorable amount. -/
theorem cancel_order_ok_spec (db : DB) (oid : String) (now : Nat) (db' : DB)
    (h : cancel_order db oid now = .ok (some db')) :
    ∃ o, db.findOrder oid = some o ∧ o.id = oid ∧
      ¬(o.status = .shipped ∨ o.status = .in_transit ∨ o.status = .delivered) ∧
      (∀ rid, db'.refSum rid = db.refSum rid +
        (if o.id = rid then restoreAmount db o.items else 0)) ∧
      (db'.findOrder oid).map Order.status = some .cancelled ∧
      (∃ newLogs, db'.invLogs = db.invLogs ++ newLogs ∧
        newLogs.map (fun l => (l.change, l.reason, l.reference_id)) =
          (o.items.filter (itemRestorable db)).map
            (fun it => ((it.quantity : Int), "order_cancelled", o.id))) := by
  simp only [cancel_order] at h
  split at h
  · simp at h
  · next o hfind =>
    split at h
    · cases h
    · next hst =>
      obtain hdbeq : _ = db' := by cases h; rfl
      subst hdbeq
      have hb := List.find?_some
        (show db.orders.find? (fun x => x.id == oid) = some o from hfind)
      have hoid : o.id = oid := eq_of_beq hb
      obtain ⟨hr1, hr2⟩ := cancelRestore_spec o o.items db
      refine ⟨o, hfind, hoid, hst, ?_, ?_, ?_⟩
      · intro rid
        rw [refSum_mapOrder, hr1 rid]
      · have hfind1 : (cancelRestore o db o.items).findOrder oid = some o := by
          show (cancelRestore o db o.items).orders.find? (fun x => x.id == oid) = some o
          rw [orders_cancelRestore]
          exact hfind
        have := findOrder_mapOrder_self (cancelRestore o db o.items) oid
          (fun x => addStatusHistory { x with status := .cancelled } "cancelled" "Order cancelled" now)
          o hfind1 rfl
        rw [this]
        rfl
      · obtain ⟨newLogs, hl1, hl2⟩ := hr2
        exact ⟨newLogs, by rw [invLogs_mapOrder, hl1], hl2⟩

/-- `cancel_order` does not reject an already-`cancelled` order: the guard
only blocks `shipped`, `in_transit` and `delivered`. -/
theorem cancel_order_accepts_cancelled (db : DB) (oid : String) (now : Nat) (o : Order)
    (hfind : db.findOrder oid = some o) (hst : o.status = .cancelled) :
    ∃ db', cancel_order db oid now = .ok (some db') := by
  simp only [cancel_order, hfind]
  rw [if_neg (by rw [hst]; rintro (h | h | h) <;> cases h)]
  exact ⟨_, rfl⟩

/-! ## Ledger-sum preservation across all other operations -/

theorem refSum_mapStockRequest (db : DB) (srid : String) (f : StockRequest → StockRequest)
    (rid : String) : (db.mapStockRequest srid f).refSum rid = db.refSum rid := rfl

theorem refSum_mapPickingList (db : DB) (plid : String) (f : PickingList → PickingList)
    (rid : String) : (db.mapPickingList plid f).refSum rid = db.refSum rid := rfl

theorem receiveLoop_refSum (sr : StockRequest) :
    ∀ (recvs : List ReceiveItemData) (db db' : DB),
      receiveLoop sr db recvs = .ok db' →
      ∀ rid, rid ≠ sr.id → db'.refSum rid = db.refSum rid
  | [], db, db', h, rid, hr => by
    obtain hdb : db = db' := by cases h; rfl
    rw [hdb]
  | r :: rest, db, db', h, rid, hr => by
    simp only [receiveLoop] at h
    split at h
    · cases h
    · next item hitem =>
      split at h
      · cases h
      · split at h
        · split at h
          · split at h
            · next variant hvf =>
              have := receiveLoop_refSum sr rest _ db' h rid hr
              rw [this, refSum_addLog, refSum_mapVariant, refSum_mapStockRequest]
              rw [if_neg (fun hh => hr hh.symm)]
              ring
            · have := receiveLoop_refSum sr rest _ db' h rid hr
              rw [this, refSum_addLog, refSum_mapStockRequest]
              rw [if_neg (fun hh => hr hh.symm)]
              ring
          · split at h
            · next product hpf =>
              have := receiveLoop_refSum sr rest _ db' h rid hr
              rw [this, refSum_addLog, refSum_mapProduct, refSum_mapStockRequest]
              rw [if_neg (fun hh => hr hh.symm)]
              ring
            · have := receiveLoop_refSum sr rest _ db' h rid hr
              rw [this, refSum_addLog, refSum_mapStockRequest]
              rw [if_neg (fun hh => hr hh.symm)]
              ring
        · have := receiveLoop_refSum sr rest _ db' h rid hr
          rw [this, refSum_mapStockRequest]

/-- A successful scan never touches products, variants, the inventory
ledger, or stock requests. -/
theorem scan_ok_tables (db : DB) (qr : String) (now : Nat) (db1 : DB) (res : ScanResult)
    (h : scan_pick_item db qr now = .ok (db1, res)) :
    db1.products = db.products ∧ db1.variants = db.variants ∧
    db1.invLogs = db.invLogs ∧ db1.stockRequests = db.stockRequests := by
  simp only [scan_pick_item] at h
  split at h
  · obtain hdb : db = db1 := by cases h; rfl
    rw [hdb]
    exact ⟨rfl, rfl, rfl, rfl⟩
  · next pi hfind =>
    split at h
    · obtain hdb : db = db1 := by cases h; rfl
      rw [hdb]
      exact ⟨rfl, rfl, rfl, rfl⟩
    · split at h
      · obtain hdb : _ = db1 := by cases h; rfl
        subst hdb
        split
        · split <;> exact ⟨rfl, rfl, rfl, rfl⟩
        · exact ⟨rfl, rfl, rfl, rfl⟩
      · next o hord =>
        split at h
        · obtain hdb : _ = db1 := by cases h; rfl
          subst hdb
          refine ⟨?_, ?_, ?_, ?_⟩ <;>
            · show _ = _
              split
              · split <;> rfl
              · rfl
        · split at h
          · cases h
          · obtain hdb : _ = db1 := by cases h; rfl
            subst hdb
            split
            · split <;> exact ⟨rfl, rfl, rfl, rfl⟩
            · exact ⟨rfl, rfl, rfl, rfl⟩

theorem create_order_refSum (settings : Settings) (db : DB) (data : OrderCreateData)
    (oid onum : String) (itemIds : Nat → String) (now : Nat) (db' : DB)
    (h : create_order settings db data oid onum itemIds now = .ok db')
    (rid : String) (hr : oid ≠ rid) : db'.refSum rid = db.refSum rid := by
  simp only [create_order] at h
  split at h
  · cases h
  · next db1 total hloop =>
    obtain ⟨ih1, _, _⟩ := createOrderItems_spec oid onum itemIds data.items _ 0 db1 total hloop
    obtain hdbeq : _ = db' := by cases h; rfl
    subst hdbeq
    rw [refSum_mapOrder, ih1 rid, if_neg hr]
    simp [DB.refSum]

theorem buy_label_invLogs (settings : Settings) (db : DB) (oid c s : String)
    (client : EPClient) (now : Nat) (db' : DB)
    (h : buy_label settings db oid c s client now = .ok db') :
    db'.invLogs = db.invLogs := by
  simp only [buy_label] at h
  split at h
  · cases h
  · split at h
    · cases h
    · split at h
      · cases h
      · split at h
        · cases h
        · split at h
          · cases h
          · split at h
            · cases h
            · split at h
              · cases h
              · split at h
                · cases h
                · split at h
                  · cases h
                  · obtain hdbeq : _ = db' := by cases h; rfl
                    subst hdbeq
                    rfl

theorem refund_invLogs (settings : Settings) (db : DB) (o : Order) (db' : DB)
    (h : refund_shipment settings db o = .ok db') : db'.invLogs = db.invLogs := by
  simp only [refund_shipment] at h
  split at h
  · cases h
  · split at h
    · cases h
    · obtain hdbeq : _ = db' := by cases h; rfl
      subst hdbeq
      rfl

theorem update_order_status_invLogs (db : DB) (oid : String) (st : St) (note : String)
    (now : Nat) (db' : DB) (h : update_order_status db oid st note now = some db') :
    db'.invLogs = db.invLogs := by
  simp only [update_order_status] at h
  split at h
  · cases h
  · obtain hdbeq : _ = db' := by cases h; rfl
    subst hdbeq
    rfl

theorem create_picking_list_invLogs (db : DB) (order_ids : List String)
    (plid plnum : String) (pickIds qrs : Nat → String) (db' : DB)
    (h : create_picking_list db order_ids plid plnum pickIds qrs = .ok db') :
    db'.invLogs = db.invLogs := by
  simp only [create_picking_list] at h
  split at h
  · cases h
  · split at h
    · cases h
    · split at h
      · cases h
      · obtain hdbeq : _ = db' := by cases h; rfl
        subst hdbeq
        rfl

theorem createProductVariants_invLogs (pid : String) (vids : Nat → String) :
    ∀ (vs : List VariantCreateData) (db : DB) (i : Nat),
      (createProductVariants pid vids db vs i).invLogs = db.invLogs
  | [], db, i => rfl
  | v :: rest, db, i => by
    simp only [createProductVariants]
    rw [createProductVariants_invLogs pid vids rest _ (i + 1)]

/-- `create_product` appends exactly one `inbound` ledger row when the
initial quantity is positive, and none otherwise — in particular none for
any of the created variants. -/
theorem create_product_invLogs (db : DB) (data : ProductCreateData) (pid : String)
    (vids : Nat → String) :
    (create_product db data pid vids).invLogs = db.invLogs ++
      (if data.quantity > 0 then
        [{ product_id := pid, change := data.quantity, reason := "inbound",
           reference_id := "", balance_after := data.quantity,
           note := "Initial stock on product creation" }]
       else []) := by
  simp only [create_product]
  rw [createProductVariants_invLogs]
  by_cases hq : data.quantity > 0
  · rw [if_pos hq, if_pos hq]
    rfl
  · rw [if_neg hq, if_neg hq]
    simp

/-- `create_variant` never appends a ledger row. -/
theorem create_variant_invLogs (db : DB) (product_id : String) (data : VariantCreateData)
    (vid : String) (db' : DB) (h : create_variant db product_id data vid = .ok (some db')) :
    db'.invLogs = db.invLogs := by
  simp only [create_variant] at h
  split at h
  · simp at h
  · split at h
    · cases h
    · obtain hdbeq : _ = db' := by
        cases h
        rfl
      subst hdbeq
      rfl

/-- `adjust_inventory` success: exactly one ledger row with the delta and
the resulting balance, and the product quantity updated to that balance. -/
theorem adjust_inventory_spec (db : DB) (product_id : String) (qty : Int)
    (reason note : String) (db' : DB) (p : Product)
    (hfind : db.findProduct product_id = some p)
    (h : adjust_inventory db product_id qty reason note = .ok (some db')) :
    db'.invLogs = db.invLogs ++
      [{ product_id := p.id, change := qty, reason := reason, reference_id := "",
         balance_after := p.quantity + qty, note := note }] ∧
    db'.findProduct product_id = some { p with quantity := p.quantity + qty } := by
  simp only [adjust_inventory, hfind] at h
  split at h
  · cases h
  · obtain hdbeq : _ = db' := by cases h; rfl
    subst hdbeq
    constructor
    · rfl
    · have hb := List.find?_some
        (show db.products.find? (fun x => x.id == product_id) = some p from hfind)
      have hpid : p.id = product_id := eq_of_beq hb
      subst hpid
      exact findOrder_mapProduct_self db p.id
        (fun x => { x with quantity := p.quantity + qty }) p hfind rfl

/-- `adjust_variant_inventory` success: exactly one ledger row (carrying the
parent product id) with the delta and resulting balance, and the variant
quantity updated to that balance. -/
theorem adjust_variant_inventory_spec (db : DB) (variant_id : String) (qty : Int)
    (reason note : String) (db' : DB) (v : Variant)
    (hfind : db.findVariant variant_id = some v)
    (h : adjust_variant_inventory db variant_id qty reason note = .ok (some db')) :
    db'.invLogs = db.invLogs ++
      [{ product_id := v.product_id, change := qty, reason := reason, reference_id := "",
         balance_after := v.quantity + qty,
         note := "[Variant " ++ v.variant_sku ++ "] " ++ note }] ∧
    db'.findVariant variant_id = some { v with quantity := v.quantity + qty } := by
  simp only [adjust_variant_inventory, hfind] at h
  split at h
  · cases h
  · obtain hdbeq : _ = db' := by cases h; rfl
    subst hdbeq
    constructor
    · rfl
    · have hb := List.find?_some
        (show db.variants.find? (fun x => x.id == variant_id) = some v from hfind)
      have hvid : v.id = variant_id := eq_of_beq hb
      subst hvid
      exact findVariant_mapVariant_self db v.id
        (fun x => { x with quantity := v.quantity + qty }) v hfind rfl

theorem refSum_eq_of_invLogs (db1 db2 : DB) (h : db1.invLogs = db2.invLogs) (rid : String) :
    db1.refSum rid = db2.refSum rid := by
  unfold DB.refSum
  rw [h]

/-- Which ledger `reference_id` an operation may write rows for: its own
order id (`create_order`, `cancel_order`), the empty reference (inventory
adjustments and product creation), or the stock-request id
(`receive_items`); all other operations write no ledger rows at all. -/
def Op.mayReference (op : Op) (rid : String) : Prop :=
  match op with
  | .createOrd _ oid _ _ _ => oid = rid
  | .cancelOrd oid _ => oid = rid
  | .adjProd _ _ _ _ => rid = ""
  | .adjVar _ _ _ _ => rid = ""
  | .mkProduct _ _ _ => rid = ""
  | .recvItems srid _ => srid = rid
  | _ => False

/-- No committed operation changes the ledger sum referencing `rid` unless
it is one of the operations that write rows with that reference. -/
theorem applyOp_refSum_preserved (settings : Settings) (db : DB) (op : Op) (rid : String)
    (h : ¬ op.mayReference rid) :
    (applyOp settings db op).refSum rid = db.refSum rid := by
  cases op with
  | createOrd data oid onum itemIds now =>
    simp only [applyOp]
    split
    · next db1 hok =>
      exact create_order_refSum settings db data oid onum itemIds now db1 hok rid
        (fun hh => h hh)
    · rfl
  | cancelOrd oid now =>
    simp only [applyOp]
    split
    · next db1 hok =>
      obtain ⟨o, hfind, hoid, _, hsum, _, _⟩ := cancel_order_ok_spec db oid now db1 hok
      rw [hsum rid, hoid, if_neg (show ¬(oid = rid) from fun hh => h hh), add_zero]
    · rfl
  | updStatus oid st note now =>
    simp only [applyOp]
    cases hu : update_order_status db oid st note now with
    | none => rfl
    | some db1 =>
      simp only [Option.getD_some]
      exact refSum_eq_of_invLogs db1 db (update_order_status_invLogs db oid st note now db1 hu) rid
  | mkBatch order_ids plid plnum pickIds qrs =>
    simp only [applyOp]
    split
    · next db1 hok =>
      exact refSum_eq_of_invLogs db1 db
        (create_picking_list_invLogs db order_ids plid plnum pickIds qrs db1 hok) rid
    · rfl
  | scan qr now =>
    simp only [applyOp]
    split
    · next db1 res hok =>
      obtain ⟨_, _, hlogs, _⟩ := scan_ok_tables db qr now db1 res hok
      exact refSum_eq_of_invLogs db1 db hlogs rid
    · rfl
  | buyLab oid carrier service client now =>
    simp only [applyOp]
    split
    · next db1 hok =>
      exact refSum_eq_of_invLogs db1 db
        (buy_label_invLogs settings db oid carrier service client now db1 hok) rid
    · rfl
  | refundShip oid =>
    simp only [applyOp]
    split
    · next o hfind =>
      split
      · next db1 hok =>
        exact refSum_eq_of_invLogs db1 db (refund_invLogs settings db o db1 hok) rid
      · rfl
    · rfl
  | adjProd pid qty reason note =>
    simp only [applyOp]
    split
    · next db1 hok =>
      simp only [adjust_inventory] at hok
      split at hok
      · simp at hok
      · next p hp =>
        split at hok
        · cases hok
        · obtain hdbeq : _ = db1 := by cases hok; rfl
          subst hdbeq
          rw [refSum_addLog, refSum_mapProduct]
          rw [if_neg (show ¬(("" : String) = rid) from fun hh => h hh.symm), add_zero]
    · rfl
  | adjVar vid qty reason note =>
    simp only [applyOp]
    split
    · next db1 hok =>
      simp only [adjust_variant_inventory] at hok
      split at hok
      · simp at hok
      · next v hv =>
        split at hok
        · cases hok
        · obtain hdbeq : _ = db1 := by cases hok; rfl
          subst hdbeq
          rw [refSum_addLog, refSum_mapVariant]
          rw [if_neg (show ¬(("" : String) = rid) from fun hh => h hh.symm), add_zero]
    · rfl
  | mkProduct data pid vids =>
    simp only [applyOp]
    have hinv := create_product_invLogs db data pid vids
    unfold DB.refSum
    rw [hinv, List.filter_append, List.map_append, List.sum_append]
    have hnil : ((if data.quantity > 0 then
        [{ product_id := pid, change := data.quantity, reason := "inbound",
           reference_id := "", balance_after := data.quantity,
           note := "Initial stock on product creation" : InventoryLog }]
        else []).filter (fun l => l.reference_id == rid)) = [] := by
      by_cases hq : data.quantity > 0
      · rw [if_pos hq]
        have : (("" : String) == rid) = false := by
          cases hb : ("" : String) == rid with
          | true => exact absurd (eq_of_beq hb).symm (fun hh => h hh)
          | false => rfl
        simp [List.filter, this]
      · rw [if_neg hq]
        rfl
    rw [hnil]
    simp
  | mkVariant product_id data vid =>
    simp only [applyOp]
    split
    · next db1 hok =>
      exact refSum_eq_of_invLogs db1 db
        (create_variant_invLogs db product_id data vid db1 hok) rid
    · rfl
  | recvItems srid recvs =>
    simp only [applyOp]
    split
    · next db1 hok =>
      simp only [receive_items] at hok
      split at hok
      · simp at hok
      · next sr hsr =>
        split at hok
        · split at hok
          · cases hok
          · next db2 hloop =>
            obtain hdbeq : db2 = db1 := by cases hok; rfl
            subst hdbeq
            have hb := List.find?_some
              (show db.stockRequests.find? (fun x => x.id == srid) = some sr from hsr)
            have hsrid : sr.id = srid := eq_of_beq hb
            have := receiveLoop_refSum sr recvs _ db2 hloop rid
              (fun hh => h (by rw [← hsrid]; exact hh.symm))
            rw [this, refSum_mapStockRequest]
        · cases hok
    · rfl

/-! ## Claim C2: the ledger balance of an order -/

theorem restoreAmount_of_all (db : DB) :
    ∀ items : List OrderItem, (∀ it ∈ items, itemRestorable db it = true) →
      restoreAmount db items = ((items.map (fun it => (it.quantity : Int))).sum)
  | [], _ => rfl
  | a :: l, h => by
    simp only [restoreAmount, List.map_cons, List.sum_cons, h a (by simp)]
    have := restoreAmount_of_all db l (fun it hit => h it (by simp [hit]))
    simp only [restoreAmount] at this
    rw [if_pos trivial, this]

def pC2 : Product := { id := "p2", sku := "S2", name := "Thing", price := 3, quantity := 10 }

def dbC2 : DB := { products := [pC2] }

def dataC2 : OrderCreateData := { items := [{ product_id := "p2", quantity := 2 }] }

def dbC2a : DB := applyOp {} dbC2 (.createOrd dataC2 "oc" "ORDC" (fun n => "i" ++ toString n) 0)

def dbC2b : DB := applyOp {} dbC2a (.cancelOrd "oc" 1)

def dbC2c : DB := applyOp {} dbC2b (.cancelOrd "oc" 2)

/-- C2 counterexample: creating an order for 2 units nets the ledger −2; the
first cancel nets it to 0; but a second `cancel_order` on the
already-`cancelled` order is not rejected and restores the stock again — the
ledger sum referencing the order becomes +2, not 0, while the status is
still `cancelled`.  This falsifies "remains true after any further sequence
of operations … including repeated cancel_order calls". -/
theorem C2_counterexample :
    dbC2a.refSum "oc" = -2 ∧
    (dbC2b.findOrder "oc").map Order.status = some .cancelled ∧
    dbC2b.refSum "oc" = 0 ∧
    (dbC2c.findOrder "oc").map Order.status = some .cancelled ∧
    dbC2c.refSum "oc" = 2 := by
  refine ⟨by decide, by decide, by decide, by decide, by decide⟩

/-- C2 amended: (a) creating an order appends ledger rows summing to
−(units reserved); (b) every committed operation that does not write rows
referencing the order preserves that sum; (c) every successful
`cancel_order` — the first one and any repetition — adds back the restorable
amount, which equals the full reserved total when every line item's
product/variant row still exists; (d) `cancel_order` does not reject an
already-`cancelled` order.  Hence the sum is −total while active and
unfulfilled, exactly zero after a single cancel, but +k·total after k
repeated cancels — the original claim's "remains zero under repeated
cancel_order" fails. -/
theorem C2_ledger_balance_amended :
    (∀ (settings : Settings) (db : DB) (data : OrderCreateData) (oid onum : String)
        (itemIds : Nat → String) (now : Nat) (db' : DB),
      create_order settings db data oid onum itemIds now = .ok db' →
      db.findOrder oid = none → db.refSum oid = 0 →
      ∃ o', db'.findOrder oid = some o' ∧ db'.refSum oid = -(orderUnits o' : Int)) ∧
    (∀ (settings : Settings) (db : DB) (op : Op) (rid : String),
      ¬ op.mayReference rid →
      (applyOp settings db op).refSum rid = db.refSum rid) ∧
    (∀ (db : DB) (oid : String) (now : Nat) (db' : DB),
      cancel_order db oid now = .ok (some db') →
      ∃ o, db.findOrder oid = some o ∧
        db'.refSum oid = db.refSum oid + restoreAmount db o.items ∧
        (db'.findOrder oid).map Order.status = some .cancelled ∧
        ((∀ it ∈ o.items, itemRestorable db it = true) →
          restoreAmount db o.items = (orderUnits o : Int))) ∧
    (∀ (db : DB) (oid : String) (now : Nat) (o : Order),
      db.findOrder oid = some o → o.status = .cancelled →
      ∃ db', cancel_order db oid now = .ok (some db')) := by
  refine ⟨?_, applyOp_refSum_preserved, ?_, cancel_order_accepts_cancelled⟩
  · intro settings db data oid onum itemIds now db' h hfresh hzero
    obtain ⟨o', h1, _, _, _, _, hsum, _⟩ :=
      create_order_spec settings db data oid onum itemIds now db' h hfresh
    refine ⟨o', h1, ?_⟩
    rw [hsum oid, hzero, if_pos rfl, zero_add]
  · intro db oid now db' h
    obtain ⟨o, hfind, hoid, _, hsum, hst, _⟩ := cancel_order_ok_spec db oid now db' h
    refine ⟨o, hfind, ?_, hst, ?_⟩
    · rw [hsum oid, hoid, if_pos rfl]
    · intro hall
      rw [restoreAmount_of_all db o.items hall]
      simp [orderUnits, Function.comp]
      rfl

/-- The cancelled row of `oc` after the first cancel. -/
def ordC2b : Order := (dbC2b.findOrder "oc").getD { id := "oc" }

theorem C2_witness :
    (∃ o', dbC2a.findOrder "oc" = some o' ∧ dbC2a.refSum "oc" = -(orderUnits o' : Int)) ∧
    (applyOp {} dbC2a (.updStatus "oc" .confirmed "" 5)).refSum "oc" = dbC2a.refSum "oc" ∧
    (∃ o, dbC2a.findOrder "oc" = some o ∧
      dbC2b.refSum "oc" = dbC2a.refSum "oc" + restoreAmount dbC2a o.items ∧
      (dbC2b.findOrder "oc").map Order.status = some .cancelled ∧
      ((∀ it ∈ o.items, itemRestorable dbC2a it = true) →
        restoreAmount dbC2a o.items = (orderUnits o : Int))) ∧
    (∃ db', cancel_order dbC2b "oc" 2 = .ok (some db')) := by
  refine ⟨?_, ?_, ?_, ?_⟩
  · exact C2_ledger_balance_amended.1 {} dbC2 dataC2 "oc" "ORDC"
      (fun n => "i" ++ toString n) 0 dbC2a rfl rfl (by decide)
  · exact C2_ledger_balance_amended.2.1 {} dbC2a (.updStatus "oc" .confirmed "" 5) "oc"
      (fun hh => hh)
  · exact C2_ledger_balance_amended.2.2.1 dbC2a "oc" 1 dbC2b rfl
  · exact C2_ledger_balance_amended.2.2.2 dbC2b "oc" 2 ordC2b rfl (by decide)

/-! ## Claim C9: one ledger row per quantity mutation -/

theorem receiveLoop_invLogs (sr : StockRequest) :
    ∀ (recvs : List ReceiveItemData) (db db' : DB),
      receiveLoop sr db recvs = .ok db' →
      ∃ newLogs, db'.invLogs = db.invLogs ++ newLogs ∧
        newLogs.map (fun l => (l.change, l.reason, l.reference_id)) =
          (recvs.filter (fun r => r.quantity_received > 0)).map
            (fun r => (r.quantity_received, "stock_request", sr.id))
  | [], db, db', h => by
    obtain hdb : db = db' := by cases h; rfl
    subst hdb
    exact ⟨[], by simp, by simp⟩
  | r :: rest, db, db', h => by
    simp only [receiveLoop] at h
    split at h
    · cases h
    · next item hitem =>
      split at h
      · cases h
      · next hneg =>
        split at h
        · next hpos =>
          split at h
          · split at h
            · next variant hvf =>
              obtain ⟨newLogs, h1, h2⟩ := receiveLoop_invLogs sr rest _ db' h
              have hx : db'.invLogs = db.invLogs ++
                  (({ product_id := item.product_id,
                      change := r.quantity_received, reason := "stock_request",
                      reference_id := sr.id,
                      balance_after := variant.quantity + r.quantity_received,
                      note := "[SR " ++ sr.request_number ++ "] Received" } : InventoryLog) :: newLogs) := by
                rw [h1]
                simp [DB.addLog, DB.mapVariant, DB.mapStockRequest]
              exact ⟨_, hx, by simp [h2, List.filter_cons, hpos]⟩
            · obtain ⟨newLogs, h1, h2⟩ := receiveLoop_invLogs sr rest _ db' h
              have hx : db'.invLogs = db.invLogs ++
                  (({ product_id := item.product_id,
                      change := r.quantity_received, reason := "stock_request",
                      reference_id := sr.id, balance_after := r.quantity_received,
                      note := "[SR " ++ sr.request_number ++ "] Received" } : InventoryLog) :: newLogs) := by
                rw [h1]
                simp [DB.addLog, DB.mapStockRequest]
              exact ⟨_, hx, by simp [h2, List.filter_cons, hpos]⟩
          · split at h
            · next product hpf =>
              obtain ⟨newLogs, h1, h2⟩ := receiveLoop_invLogs sr rest _ db' h
              have hx : db'.invLogs = db.invLogs ++
                  (({ product_id := item.product_id,
                      change := r.quantity_received, reason := "stock_request",
                      reference_id := sr.id,
                      balance_after := product.quantity + r.quantity_received,
                      note := "[SR " ++ sr.request_number ++ "] Received" } : InventoryLog) :: newLogs) := by
                rw [h1]
                simp [DB.addLog, DB.mapProduct, DB.mapStockRequest]
              exact ⟨_, hx, by simp [h2, List.filter_cons, hpos]⟩
            · obtain ⟨newLogs, h1, h2⟩ := receiveLoop_invLogs sr rest _ db' h
              have hx : db'.invLogs = db.invLogs ++
                  (({ product_id := item.product_id,
                      change := r.quantity_received, reason := "stock_request",
                      reference_id := sr.id, balance_after := r.quantity_received,
                      note := "[SR " ++ sr.request_number ++ "] Received" } : InventoryLog) :: newLogs) := by
                rw [h1]
                simp [DB.addLog, DB.mapStockRequest]
              exact ⟨_, hx, by simp [h2, List.filter_cons, hpos]⟩
        · next hpos =>
          obtain ⟨newLogs, h1, h2⟩ := receiveLoop_invLogs sr rest _ db' h
          refine ⟨newLogs, ?_, ?_⟩
          · rw [h1]
            rfl
          · rw [h2]
            have : (decide (r.quantity_received > 0)) = false := by
              simpa using hpos
            simp [List.filter_cons, this]

def pC9 : Product := { id := "p9", sku := "S9", name := "Base" }

def dbC9 : DB := { products := [pC9] }

def dataC9 : VariantCreateData := { variant_sku := "V9", quantity := 5 }

/-- C9 counterexample: `create_variant` with initial stock 5 succeeds,
stores the variant with quantity 5, and appends no inventory-ledger row at
all — the claimed "exactly one ledger row per product/variant touched" fails
for variant creation with initial stock. -/
theorem C9_counterexample :
    isOkResult (create_variant dbC9 "p9" dataC9 "v9") = true ∧
    (applyOp {} dbC9 (.mkVariant "p9" dataC9 "v9")).invLogs = [] ∧
    ((applyOp {} dbC9 (.mkVariant "p9" dataC9 "v9")).findVariant "v9").map
      (fun v => v.quantity) = some 5 := by
  refine ⟨rfl, rfl, by decide⟩

/-- C9 amended: every modelled quantity mutation appends its ledger rows in
the same transaction — inventory adjustments append exactly one row with the
applied delta and the resulting balance (and the quantity is updated to that
balance); product creation appends exactly one `inbound` row exactly when
the initial quantity is positive, with the initial balance; order creation
appends one `order` row per line item with change −quantity referencing the
order; cancellation appends one `order_cancelled` row per restorable line
item with change +quantity; receiving appends one `stock_request` row per
positively received entry with the received quantity, referencing the stock
request — EXCEPT variant creation with initial stock (standalone
`create_variant` and the variant loop of `create_product`), which sets the
variant quantity and appends no ledger row. -/
theorem C9_ledger_per_mutation_amended :
    (∀ (db : DB) (product_id : String) (qty : Int) (reason note : String) (db' : DB)
        (p : Product), db.findProduct product_id = some p →
      adjust_inventory db product_id qty reason note = .ok (some db') →
      db'.invLogs = db.invLogs ++
        [{ product_id := p.id, change := qty, reason := reason, reference_id := "",
           balance_after := p.quantity + qty, note := note }] ∧
      db'.findProduct product_id = some { p with quantity := p.quantity + qty }) ∧
    (∀ (db : DB) (variant_id : String) (qty : Int) (reason note : String) (db' : DB)
        (v : Variant), db.findVariant variant_id = some v →
      adjust_variant_inventory db variant_id qty reason note = .ok (some db') →
      db'.invLogs = db.invLogs ++
        [{ product_id := v.product_id, change := qty, reason := reason, reference_id := "",
           balance_after := v.quantity + qty,
           note := "[Variant " ++ v.variant_sku ++ "] " ++ note }] ∧
      db'.findVariant variant_id = some { v with quantity := v.quantity + qty }) ∧
    (∀ (db : DB) (data : ProductCreateData) (pid : String) (vids : Nat → String),
      (create_product db data pid vids).invLogs = db.invLogs ++
        (if data.quantity > 0 then
          [{ product_id := pid, change := data.quantity, reason := "inbound",
             reference_id := "", balance_after := data.quantity,
             note := "Initial stock on product creation" }]
         else [])) ∧
    (∀ (db : DB) (product_id : String) (data : VariantCreateData) (vid : String) (db' : DB),
      create_variant db product_id data vid = .ok (some db') →
      db.findVariant vid = none →
      db'.invLogs = db.invLogs ∧
      db'.findVariant vid = some
        { id := vid, product_id := product_id, variant_sku := data.variant_sku,
          attributes := data.attributes, price_override := data.price_override,
          quantity := data.quantity }) ∧
    (∀ (settings : Settings) (db : DB) (data : OrderCreateData) (oid onum : String)
        (itemIds : Nat → String) (now : Nat) (db' : DB),
      create_order settings db data oid onum itemIds now = .ok db' →
      db.findOrder oid = none →
      ∃ newLogs, db'.invLogs = db.invLogs ++ newLogs ∧
        newLogs.map (fun l => (l.change, l.reason, l.reference_id)) =
          data.items.map (fun d => (-(d.quantity : Int), "order", oid))) ∧
    (∀ (db : DB) (oid : String) (now : Nat) (db' : DB),
      cancel_order db oid now = .ok (some db') →
      ∃ o, db.findOrder oid = some o ∧
        ∃ newLogs, db'.invLogs = db.invLogs ++ newLogs ∧
          newLogs.map (fun l => (l.change, l.reason, l.reference_id)) =
            (o.items.filter (itemRestorable db)).map
              (fun it => ((it.quantity : Int), "order_cancelled", o.id))) ∧
    (∀ (db : DB) (sr_id : String) (recvs : List ReceiveItemData) (db' : DB) (sr : StockRequest),
      db.findStockRequest sr_id = some sr →
      receive_items db sr_id recvs = .ok (some db') →
      ∃ newLogs, db'.invLogs = db.invLogs ++ newLogs ∧
        newLogs.map (fun l => (l.change, l.reason, l.reference_id)) =
          (recvs.filter (fun r => r.quantity_received > 0)).map
            (fun r => (r.quantity_received, "stock_request", sr.id))) := by
  refine ⟨?_, ?_, create_product_invLogs, ?_, ?_, ?_, ?_⟩
  · intro db product_id qty reason note db' p hfind h
    exact adjust_inventory_spec db product_id qty reason note db' p hfind h
  · intro db variant_id qty reason note db' v hfind h
    exact adjust_variant_inventory_spec db variant_id qty reason note db' v hfind h
  · intro db product_id data vid db' h hfresh
    refine ⟨create_variant_invLogs db product_id data vid db' h, ?_⟩
    simp only [create_variant] at h
    split at h
    · simp at h
    · split at h
      · cases h
      · obtain hdbeq : _ = db' := by cases h; rfl
        subst hdbeq
        show (db.variants ++ [_]).find? _ = _
        rw [find?_append_of_none _ _ _ hfresh]
        simp [List.find?]
  · intro settings db data oid onum itemIds now db' h hfresh
    obtain ⟨_, _, _, _, _, _, _, hlogs⟩ :=
      create_order_spec settings db data oid onum itemIds now db' h hfresh
    exact hlogs
  · intro db oid now db' h
    obtain ⟨o, hfind, _, _, _, _, hlogs⟩ := cancel_order_ok_spec db oid now db' h
    exact ⟨o, hfind, hlogs⟩
  · intro db sr_id recvs db' sr hfind h
    simp only [receive_items, hfind] at h
    split at h
    · split at h
      · cases h
      · next db2 hloop =>
        obtain hdbeq : db2 = db' := by cases h; rfl
        subst hdbeq
        obtain ⟨newLogs, h1, h2⟩ := receiveLoop_invLogs sr recvs _ db2 hloop
        exact ⟨newLogs, by rw [h1]; rfl, h2⟩
    · cases h

def vC9 : Variant := { id := "v0", product_id := "p9", variant_sku := "V0" }

def dbC9v : DB := { products := [pC9], variants := [vC9] }

def srC9 : StockRequest :=
  { id := "sr1", request_number := "SR1", status := .approved,
    items := [{ id := "sri1", product_id := "p9" }] }

def dbC9s : DB := { products := [pC9], stockRequests := [srC9] }

def recvC9 : List ReceiveItemData := [{ item_id := "sri1", quantity_received := 4 }]

theorem C9_witness :
    ((applyOp {} dbC9 (.adjProd "p9" 3 "adjustment" "n")).invLogs = dbC9.invLogs ++
        [{ product_id := pC9.id, change := 3, reason := "adjustment", reference_id := "",
           balance_after := pC9.quantity + 3, note := "n" }] ∧
      (applyOp {} dbC9 (.adjProd "p9" 3 "adjustment" "n")).findProduct "p9" =
        some { pC9 with quantity := pC9.quantity + 3 }) ∧
    ((applyOp {} dbC9v (.adjVar "v0" 2 "adjustment" "n")).invLogs = dbC9v.invLogs ++
        [{ product_id := vC9.product_id, change := 2, reason := "adjustment",
           reference_id := "", balance_after := vC9.quantity + 2,
           note := "[Variant " ++ vC9.variant_sku ++ "] " ++ "n" }] ∧
      (applyOp {} dbC9v (.adjVar "v0" 2 "adjustment" "n")).findVariant "v0" =
        some { vC9 with quantity := vC9.quantity + 2 }) ∧
    ((applyOp {} dbC9 (.mkVariant "p9" dataC9 "v9")).invLogs = dbC9.invLogs ∧
      (applyOp {} dbC9 (.mkVariant "p9" dataC9 "v9")).findVariant "v9" =
        some { id := "v9", product_id := "p9", variant_sku := dataC9.variant_sku,
               attributes := dataC9.attributes, price_override := dataC9.price_override,
               quantity := dataC9.quantity }) ∧
    (∃ newLogs, dbC2a.invLogs = dbC2.invLogs ++ newLogs ∧
      newLogs.map (fun l => (l.change, l.reason, l.reference_id)) =
        dataC2.items.map (fun d => (-(d.quantity : Int), "order", "oc"))) ∧
    (∃ o, dbC2a.findOrder "oc" = some o ∧
      ∃ newLogs, dbC2b.invLogs = dbC2a.invLogs ++ newLogs ∧
        newLogs.map (fun l => (l.change, l.reason, l.reference_id)) =
          (o.items.filter (itemRestorable dbC2a)).map
            (fun it => ((it.quantity : Int), "order_cancelled", o.id))) ∧
    (∃ newLogs, (applyOp {} dbC9s (.recvItems "sr1" recvC9)).invLogs =
        dbC9s.invLogs ++ newLogs ∧
      newLogs.map (fun l => (l.change, l.reason, l.reference_id)) =
        (recvC9.filter (fun r => r.quantity_received > 0)).map
          (fun r => (r.quantity_received, "stock_request", srC9.id))) := by
  refine ⟨?_, ?_, ?_, ?_, ?_, ?_⟩
  · exact C9_ledger_per_mutation_amended.1 dbC9 "p9" 3 "adjustment" "n" _ pC9 rfl rfl
  · exact C9_ledger_per_mutation_amended.2.1 dbC9v "v0" 2 "adjustment" "n" _ vC9 rfl rfl
  · exact C9_ledger_per_mutation_amended.2.2.2.1 dbC9 "p9" dataC9 "v9" _ rfl rfl
  · exact C9_ledger_per_mutation_amended.2.2.2.2.1 {} dbC2 dataC2 "oc" "ORDC"
      (fun n => "i" ++ toString n) 0 dbC2a rfl rfl
  · exact C9_ledger_per_mutation_amended.2.2.2.2.2.1 dbC2a "oc" 1 dbC2b rfl
  · exact C9_ledger_per_mutation_amended.2.2.2.2.2.2 dbC9s "sr1" recvC9 _ srC9 rfl rfl

/-! ## Claim C1: the webhook path and status transitions -/

/-- C1 fixture: a delivered order carrying a tracking number, and a late
`in_transit` tracking event for it. -/
def oC1 : Order := { id := "oW", status := St.delivered, tracking_number := "TRK" }

def dbC1 : DB := { orders := [oC1] }

def evC1 : TrackingEvent := { tracking_code := "TRK", status := "in_transit" }

/-- C1: the webhook path cannot perform any status transition at all.  The
`app.api.webhooks` module fails at import (`_PRE_SHIPPED` references
`OrderStatus.DROP_OFF`, a member the enum does not declare), and the handler
body itself, for every event matching an order, raises `AttributeError` at
webhooks.py line 75 reading the unmapped `order.tracking_status` before any
mutation, rolling the transaction back; every non-raising outcome returns
the state unchanged.  The regression guard the claim describes is therefore
satisfied only vacuously: no webhook-driven transition — forward or
backward — exists in the program.  Manual `update_order_status` is indeed
unconstrained and sets any enum-member status. -/
theorem C1_webhook_path_cannot_update (db : DB) (ev : TrackingEvent) :
    webhookModuleImport = Except.error (Err.attributeError "DROP_OFF") ∧
    St.isEnumMember St.drop_off = false ∧
    (∀ o : Order, (ev.tracking_code == "") = false →
      db.orders.find? (fun x => x.tracking_number == ev.tracking_code) = some o →
      easypost_webhook db ev = .error (.attributeError "tracking_status")) ∧
    (∀ (db' : DB) (resp : WebhookResp),
      easypost_webhook db ev = .ok (db', resp) → db' = db) ∧
    (∀ (oid : String) (o : Order), db.findOrder oid = some o →
      ∀ st : St, St.isEnumMember st = true → ∀ (note : String) (t : Nat),
        ∃ db2, update_order_status db oid st note t = some db2 ∧
          (db2.findOrder oid).map Order.status = some st) := by
  refine ⟨rfl, rfl, ?_, ?_, ?_⟩
  · intro o hcode hfind
    simp only [easypost_webhook, hcode, hfind, Bool.false_eq_true, if_false]
  · intro db' resp h
    simp only [easypost_webhook] at h
    split at h
    · obtain hdb : db = db' := by cases h; rfl
      exact hdb.symm
    · split at h
      · obtain hdb : db = db' := by cases h; rfl
        exact hdb.symm
      · cases h
  · intro oid o hfind st _ note t
    refine ⟨db.mapOrder oid (fun x => addStatusHistory { x with status := st } st.str note t),
      ?_, ?_⟩
    · simp only [update_order_status, hfind]
    · have hres := findOrder_mapOrder_self db oid
        (fun x => addStatusHistory { x with status := st } st.str note t) o hfind rfl
      rw [hres]
      rfl

theorem C1_witness :
    webhookModuleImport = Except.error (Err.attributeError "DROP_OFF") ∧
    easypost_webhook dbC1 evC1 = .error (.attributeError "tracking_status") ∧
    (∃ db2, update_order_status dbC1 "oW" St.shipped "n" 3 = some db2 ∧
      (db2.findOrder "oW").map Order.status = some St.shipped) :=
  ⟨(C1_webhook_path_cannot_update dbC1 evC1).1,
   (C1_webhook_path_cannot_update dbC1 evC1).2.2.1 oC1 rfl rfl,
   (C1_webhook_path_cannot_update dbC1 evC1).2.2.2.2 "oW" oC1 rfl St.shipped rfl "n" 3⟩

/-! ## Claim C10: the frame of a unit scan -/

theorem map_update_cases {α : Type} (p : α → Bool) (f : α → α) (l : List α) :
    ∀ y ∈ l.map (fun x => if p x then f x else x),
      (y ∈ l) ∨ ∃ x ∈ l, p x = true ∧ y = f x := by
  intro y hy
  obtain ⟨x, hx, hyx⟩ := List.mem_map.mp hy
  by_cases hpx : p x
  · right
    exact ⟨x, hx, by simpa using hpx, by rw [← hyx]; simp [hpx]⟩
  · left
    have : y = x := by rw [← hyx]; simp [hpx]
    rw [this]
    exact hx

theorem findOrder_some_id (db : DB) (oid : String) (o : Order)
    (h : db.findOrder oid = some o) : o.id = oid := by
  have h' : db.orders.find? (fun x => x.id == oid) = some o := h
  have hp := List.find?_some h'
  exact eq_of_beq hp

theorem findPickingList_some_id (db : DB) (plid : String) (l : PickingList)
    (h : db.findPickingList plid = some l) : l.id = plid := by
  have h' : db.pickingLists.find? (fun x => x.id == plid) = some l := h
  have hp := List.find?_some h'
  exact eq_of_beq hp

/-- The committed state of a successful scan of a not-yet-picked item:
pick items are exactly the original table with the matching QR rows marked
picked; the orders table is unchanged or has only the owning order's status
set to `packed`; the picking lists are unchanged or have only the owning
list's status set to `processing`. -/
theorem scan_ok_shape (db : DB) (qr : String) (now : Nat) (db1 : DB) (res : ScanResult)
    (pi : PickItem)
    (hfind : db.pickItems.find? (fun i => i.qr_code == qr) = some pi)
    (hnp : pi.picked = false)
    (h : scan_pick_item db qr now = .ok (db1, res)) :
    db1.pickItems = db.pickItems.map (fun i =>
      if i.qr_code == qr then { i with picked := true, picked_at := some now } else i) ∧
    (db1.orders = db.orders ∨ db1.orders = db.orders.map (fun x =>
      if x.id == pi.order_id then { x with status := St.packed } else x)) ∧
    (db1.pickingLists = db.pickingLists ∨ db1.pickingLists = db.pickingLists.map (fun x =>
      if x.id == pi.picking_list_id then { x with status := PLStatus.processing } else x)) := by
  simp only [scan_pick_item] at h
  split at h
  · next heq =>
    rw [hfind] at heq
    cases heq
  · next pi' hfind' =>
    rw [hfind] at hfind'
    injection hfind' with hpi
    subst hpi
    split at h
    · next hpicked =>
      rw [hnp] at hpicked
      exact absurd hpicked (by decide)
    · split at h
      · obtain hdb : _ = db1 := by cases h; rfl
        subst hdb
        refine ⟨?_, Or.inl ?_, ?_⟩
        · split
          · split
            · rfl
            · rfl
          · rfl
        · split
          · split
            · rfl
            · rfl
          · rfl
        · split
          · next l hl =>
            split
            · have hlid : l.id = pi.picking_list_id := findPickingList_some_id _ _ _ hl
              right
              rw [← hlid]
              rfl
            · exact Or.inl rfl
          · exact Or.inl rfl
      · next o hord =>
        have hoid : o.id = pi.order_id := findOrder_some_id _ _ _ hord
        split at h
        · obtain hdb : _ = db1 := by cases h; rfl
          subst hdb
          refine ⟨?_, Or.inr ?_, ?_⟩
          · split
            · split
              · rfl
              · rfl
            · rfl
          · rw [← hoid]
            split
            · split
              · rfl
              · rfl
            · rfl
          · split
            · next l hl =>
              split
              · have hlid : l.id = pi.picking_list_id := findPickingList_some_id _ _ _ hl
                right
                rw [← hlid]
                rfl
              · exact Or.inl rfl
            · exact Or.inl rfl
        · split at h
          · cases h
          · obtain hdb : _ = db1 := by cases h; rfl
            subst hdb
            refine ⟨?_, Or.inl ?_, ?_⟩
            · split
              · split
                · rfl
                · rfl
              · rfl
            · split
              · split
                · rfl
                · rfl
              · rfl
            · split
              · next l hl =>
                split
                · have hlid : l.id = pi.picking_list_id := findPickingList_some_id _ _ _ hl
                  right
                  rw [← hlid]
                  rfl
                · exact Or.inl rfl
              · exact Or.inl rfl

/-- C10: for a scan of a not-yet-picked pick item, the committed state of
`scan_pick_item` (error = rollback) leaves products, variants, the inventory
ledger and stock requests untouched, creates and deletes no pick item, keeps
every pick item whose QR code differs, turns matching pick items only into
their picked versions, keeps every order other than the owning order, changes
an order only by setting its status to `packed`, keeps every picking list
other than the owning list, and changes a picking list only by setting its
status to `processing`. -/
theorem C10_scan_frame_effect (settings : Settings) (db : DB) (qr : String) (now : Nat)
    (pi : PickItem)
    (hfind : db.pickItems.find? (fun i => i.qr_code == qr) = some pi)
    (hnp : pi.picked = false)
    (dbc : DB) (hc : applyOp settings db (Op.scan qr now) = dbc) :
    dbc.products = db.products ∧ dbc.variants = db.variants ∧
    dbc.invLogs = db.invLogs ∧ dbc.stockRequests = db.stockRequests ∧
    dbc.pickItems.length = db.pickItems.length ∧
    (∀ i ∈ db.pickItems, (i.qr_code == qr) = false → i ∈ dbc.pickItems) ∧
    (∀ i ∈ dbc.pickItems, i ∈ db.pickItems ∨
       ∃ j ∈ db.pickItems, (j.qr_code == qr) = true ∧
         i = { j with picked := true, picked_at := some now }) ∧
    (∀ o ∈ db.orders, o.id ≠ pi.order_id → o ∈ dbc.orders) ∧
    (∀ o ∈ dbc.orders, o ∈ db.orders ∨
       ∃ o0 ∈ db.orders, o0.id = pi.order_id ∧ o = { o0 with status := St.packed }) ∧
    (∀ l ∈ db.pickingLists, l.id ≠ pi.picking_list_id → l ∈ dbc.pickingLists) ∧
    (∀ l ∈ dbc.pickingLists, l ∈ db.pickingLists ∨
       ∃ l0 ∈ db.pickingLists, l0.id = pi.picking_list_id ∧
         l = { l0 with status := PLStatus.processing }) := by
  subst hc
  cases hscan : scan_pick_item db qr now with
  | error e =>
    have hdb : applyOp settings db (Op.scan qr now) = db := by
      simp only [applyOp, hscan]
    rw [hdb]
    refine ⟨rfl, rfl, rfl, rfl, rfl, ?_, ?_, ?_, ?_, ?_, ?_⟩
    · exact fun i hi _ => hi
    · exact fun i hi => Or.inl hi
    · exact fun o ho _ => ho
    · exact fun o ho => Or.inl ho
    · exact fun l hl _ => hl
    · exact fun l hl => Or.inl hl
  | ok pr =>
    obtain ⟨db1, res⟩ := pr
    have hdb : applyOp settings db (Op.scan qr now) = db1 := by
      simp only [applyOp, hscan]
    rw [hdb]
    obtain ⟨htab1, htab2, htab3, htab4⟩ := scan_ok_tables db qr now db1 res hscan
    obtain ⟨hpick, hords, hpls⟩ := scan_ok_shape db qr now db1 res pi hfind hnp hscan
    refine ⟨htab1, htab2, htab3, htab4, ?_, ?_, ?_, ?_, ?_, ?_, ?_⟩
    · rw [hpick, List.length_map]
    · intro i hi hne
      rw [hpick]
      exact mem_map_update (fun (x : PickItem) => x.qr_code == qr)
        (fun x => { x with picked := true, picked_at := some now }) db.pickItems i hi hne
    · intro i hi
      rw [hpick] at hi
      rcases map_update_cases (fun (x : PickItem) => x.qr_code == qr)
          (fun x => { x with picked := true, picked_at := some now }) db.pickItems i hi with
        h2 | ⟨j, hj, hpj, hij⟩
      · exact Or.inl h2
      · exact Or.inr ⟨j, hj, hpj, hij⟩
    · intro o ho hne
      rcases hords with h2 | h2
      · rw [h2]; exact ho
      · rw [h2]
        exact mem_map_update (fun (x : Order) => x.id == pi.order_id)
          (fun x => { x with status := St.packed }) db.orders o ho (by simpa using hne)
    · intro o ho
      rcases hords with h2 | h2
      · rw [h2] at ho; exact Or.inl ho
      · rw [h2] at ho
        rcases map_update_cases (fun (x : Order) => x.id == pi.order_id)
            (fun x => { x with status := St.packed }) db.orders o ho with
          h3 | ⟨o0, ho0, hpo, hoe⟩
        · exact Or.inl h3
        · exact Or.inr ⟨o0, ho0, eq_of_beq hpo, hoe⟩
    · intro l hl hne
      rcases hpls with h2 | h2
      · rw [h2]; exact hl
      · rw [h2]
        exact mem_map_update (fun (x : PickingList) => x.id == pi.picking_list_id)
          (fun x => { x with status := PLStatus.processing }) db.pickingLists l hl
          (by simpa using hne)
    · intro l hl
      rcases hpls with h2 | h2
      · rw [h2] at hl; exact Or.inl hl
      · rw [h2] at hl
        rcases map_update_cases (fun (x : PickingList) => x.id == pi.picking_list_id)
            (fun x => { x with status := PLStatus.processing }) db.pickingLists l hl with
          h3 | ⟨l0, hl0, hpl, hle⟩
        · exact Or.inl h3
        · exact Or.inr ⟨l0, hl0, eq_of_beq hpl, hle⟩

/-- C10 witness fixture: one active picking list with a single unpicked
pick item for a processing order. -/
def piC10 : PickItem :=
  { id := "iX", picking_list_id := "LX", order_id := "oX", qr_code := "QX" }

def dbC10 : DB :=
  { orders := [{ id := "oX", status := St.processing }],
    pickingLists := [{ id := "LX", picking_number := "PL-X", status := PLStatus.active }],
    pickItems := [piC10] }

def dbcC10 : DB := applyOp {} dbC10 (Op.scan "QX" 7)

theorem C10_witness :
    dbcC10.products = dbC10.products ∧ dbcC10.variants = dbC10.variants ∧
    dbcC10.invLogs = dbC10.invLogs ∧ dbcC10.stockRequests = dbC10.stockRequests ∧
    dbcC10.pickItems.length = dbC10.pickItems.length ∧
    (∀ i ∈ dbC10.pickItems, (i.qr_code == "QX") = false → i ∈ dbcC10.pickItems) ∧
    (∀ i ∈ dbcC10.pickItems, i ∈ dbC10.pickItems ∨
       ∃ j ∈ dbC10.pickItems, (j.qr_code == "QX") = true ∧
         i = { j with picked := true, picked_at := some 7 }) ∧
    (∀ o ∈ dbC10.orders, o.id ≠ piC10.order_id → o ∈ dbcC10.orders) ∧
    (∀ o ∈ dbcC10.orders, o ∈ dbC10.orders ∨
       ∃ o0 ∈ dbC10.orders, o0.id = piC10.order_id ∧ o = { o0 with status := St.packed }) ∧
    (∀ l ∈ dbC10.pickingLists, l.id ≠ piC10.picking_list_id → l ∈ dbcC10.pickingLists) ∧
    (∀ l ∈ dbcC10.pickingLists, l ∈ dbC10.pickingLists ∨
       ∃ l0 ∈ dbC10.pickingLists, l0.id = piC10.picking_list_id ∧
         l = { l0 with status := PLStatus.processing }) :=
  C10_scan_frame_effect {} dbC10 "QX" 7 piC10 rfl rfl dbcC10 rfl

end Warehouse
